import Mathlib

/-!
Verification development for the RBAC core of the `bi.dencaps.com` backend
(`src/backend/src/services/rbac.rs`, `src/backend/src/models/mod.rs`,
`src/backend/src/middleware/rbac.rs`, `src/backend/src/handlers/rbac.rs`).

The Rust service talks to MongoDB collections (users, roles, memberships,
projects) and a Redis cache.  We embed it as a state-passing program over a
`St` record holding the four collections as lists (a Mongo `find_one` is the
first list element matching the filter, `insert_one` appends, `update_one` /
`delete_one` act on the first match), the cache as an association list, and
boolean fault flags modelling transport failures of each backing collection
and of the cache (a `xxxDown` flag makes every access to that collection
return the corresponding `Err`, exactly where the Rust propagates a driver
error; `cacheReadErr` makes Redis `GET` return `Err`, `cacheWriteErr` makes
`SET`/`DEL` return `Err` — both of which the Rust code swallows).

Field-for-field the records follow `models/mod.rs`; the Mongo `_id : Option
<ObjectId>` fields and the `created_at` / `updated_at` / `resolved_at`
timestamp metadata are omitted (no claim mentions them, and no control flow
reads them).  `User.role` is embedded as the `UserRole` enum, which is how
`rbac.rs` consumes it (`matches!(user.role, UserRole::Admin)`,
`get_global_permissions(&user.role)`).  `Uuid::new_v4` is modelled by a
fresh-id counter `nextId`.  `HashSet<String>` values are modelled as
`Finset String`.
-/

namespace BiRbac

/-- The closed permission catalog (`Permission` enum of `models/mod.rs`). -/
inductive Permission where
  | projectCreate
  | projectRead
  | projectUpdate
  | projectDelete
  | projectManageMembers
  | userCreate
  | userRead
  | userUpdate
  | userDelete
  | userManageRoles
  | chatRead
  | chatWrite
  | chatDelete
  | chatExport
  | reportCreate
  | reportRead
  | reportExport
  | reportDelete
  | adminAccess
  | systemSettings
  deriving DecidableEq, Repr

/-- `Permission::as_str` of `models/mod.rs`. -/
def Permission.as_str : Permission → String
  | .projectCreate => "project:create"
  | .projectRead => "project:read"
  | .projectUpdate => "project:update"
  | .projectDelete => "project:delete"
  | .projectManageMembers => "project:manage_members"
  | .userCreate => "user:create"
  | .userRead => "user:read"
  | .userUpdate => "user:update"
  | .userDelete => "user:delete"
  | .userManageRoles => "user:manage_roles"
  | .chatRead => "chat:read"
  | .chatWrite => "chat:write"
  | .chatDelete => "chat:delete"
  | .chatExport => "chat:export"
  | .reportCreate => "report:create"
  | .reportRead => "report:read"
  | .reportExport => "report:export"
  | .reportDelete => "report:delete"
  | .adminAccess => "admin:access"
  | .systemSettings => "system:settings"

/-- `Permission::from_str` of `models/mod.rs`. -/
def Permission.from_str (s : String) : Option Permission :=
  if s = "project:create" then some .projectCreate
  else if s = "project:read" then some .projectRead
  else if s = "project:update" then some .projectUpdate
  else if s = "project:delete" then some .projectDelete
  else if s = "project:manage_members" then some .projectManageMembers
  else if s = "user:create" then some .userCreate
  else if s = "user:read" then some .userRead
  else if s = "user:update" then some .userUpdate
  else if s = "user:delete" then some .userDelete
  else if s = "user:manage_roles" then some .userManageRoles
  else if s = "chat:read" then some .chatRead
  else if s = "chat:write" then some .chatWrite
  else if s = "chat:delete" then some .chatDelete
  else if s = "chat:export" then some .chatExport
  else if s = "report:create" then some .reportCreate
  else if s = "report:read" then some .reportRead
  else if s = "report:export" then some .reportExport
  else if s = "report:delete" then some .reportDelete
  else if s = "admin:access" then some .adminAccess
  else if s = "system:settings" then some .systemSettings
  else none

/-- `Permission::all` of `models/mod.rs` (its exact order). -/
def Permission.all : List Permission :=
  [.projectCreate, .projectRead, .projectUpdate, .projectDelete,
   .projectManageMembers, .userCreate, .userRead, .userUpdate, .userDelete,
   .userManageRoles, .chatRead, .chatWrite, .chatDelete, .chatExport,
   .reportCreate, .reportRead, .reportExport, .reportDelete, .adminAccess,
   .systemSettings]

/-- The string encodings of the entire catalog, as the admin branch of
`resolve_permissions` collects them into a `HashSet<String>`. -/
def all_permission_strings : Finset String :=
  (Permission.all.map Permission.as_str).toFinset

/-- `UserRole` enum of `models/mod.rs`. -/
inductive UserRole where
  | admin
  | projectOwner
  | projectMember
  | viewer
  deriving DecidableEq, Repr

/-- `User` of `models/mod.rs`, restricted to the fields `rbac.rs` reads. -/
structure User where
  user_id : String
  role : UserRole
  tenant_id : String
  deriving DecidableEq, Repr

/-- `Role` of `models/mod.rs` (without `_id` and timestamps). -/
structure Role where
  role_id : String
  name : String
  description : String
  permissions : List String
  is_system_role : Bool
  tenant_id : String
  deriving DecidableEq, Repr

/-- `ProjectMembership` of `models/mod.rs` (without `_id` and timestamps). -/
structure ProjectMembership where
  membership_id : String
  user_id : String
  project_id : String
  role_id : String
  tenant_id : String
  deriving DecidableEq, Repr

/-- `Project` of `models/mod.rs`, restricted to the fields `rbac.rs` reads. -/
structure Project where
  project_id : String
  owner_id : String
  tenant_id : String
  deriving DecidableEq, Repr

/-- `ResolvedPermissions` of `models/mod.rs` (without `resolved_at`). -/
structure ResolvedPermissions where
  user_id : String
  project_id : Option String
  permissions : Finset String
  is_admin : Bool
  deriving DecidableEq

/-- `ResolvedPermissions::has_permission`. -/
def ResolvedPermissions.has_permission (rp : ResolvedPermissions)
    (p : Permission) : Bool :=
  rp.is_admin || decide (p.as_str ∈ rp.permissions)

/-- `ResolvedPermissions::has_any_permission`. -/
def ResolvedPermissions.has_any_permission (rp : ResolvedPermissions)
    (ps : List Permission) : Bool :=
  rp.is_admin || ps.any (fun p => decide (p.as_str ∈ rp.permissions))

/-- `ResolvedPermissions::has_all_permissions`. -/
def ResolvedPermissions.has_all_permissions (rp : ResolvedPermissions)
    (ps : List Permission) : Bool :=
  rp.is_admin || ps.all (fun p => decide (p.as_str ∈ rp.permissions))

/-- `UpdateRoleDto` of `models/mod.rs`. -/
structure UpdateRoleDto where
  name : Option String
  description : Option String
  permissions : Option (List String)
  deriving DecidableEq, Repr

/-- `AssignRoleDto` of `models/mod.rs`. -/
structure AssignRoleDto where
  user_id : String
  project_id : String
  role_id : String
  deriving DecidableEq, Repr

/-- A Redis value: either a serialized `ResolvedPermissions` under a
`permissions:...` key or a serialized `Role` under a `role:...` key. -/
inductive CacheEntry where
  | perm (v : ResolvedPermissions)
  | role (r : Role)
  deriving DecidableEq

/-- The Redis keyspace, as an association list (newest binding first). -/
abbrev Cache := List (String × CacheEntry)

/-- Redis `GET`: the newest binding of the key. -/
def clookup (c : Cache) (k : String) : Option CacheEntry :=
  (c.find? (fun e => e.1 == k)).map (fun e => e.2)

/-- Redis `SET` (`set_ex`): the new binding shadows any older one. -/
def cset (c : Cache) (k : String) (v : CacheEntry) : Cache :=
  (k, v) :: c

/-- Redis `DEL`: every binding of the key is removed. -/
def cdel (c : Cache) (k : String) : Cache :=
  c.filter (fun e => !(e.1 == k))

/-- The whole backing state: Mongo collections, Redis, fault flags, and the
fresh-UUID counter. -/
structure St where
  users : List User
  roles : List Role
  memberships : List ProjectMembership
  projects : List Project
  cache : Cache
  usersDown : Bool
  rolesDown : Bool
  membershipsDown : Bool
  projectsDown : Bool
  cacheReadErr : Bool
  cacheWriteErr : Bool
  nextId : Nat
  deriving DecidableEq

/-- `RbacService::get_cached_permissions`: a Redis error or a value that does
not deserialize as `ResolvedPermissions` is reported as a miss. -/
def get_cached_permissions (st : St) (key : String) :
    Option ResolvedPermissions :=
  if st.cacheReadErr then none
  else match clookup st.cache key with
    | some (CacheEntry.perm v) => some v
    | _ => none

/-- `RbacService::cache_permissions`: a Redis write error is ignored. -/
def cache_permissions (st : St) (key : String) (v : ResolvedPermissions) :
    St :=
  if st.cacheWriteErr then st
  else { st with cache := cset st.cache key (CacheEntry.perm v) }

/-- `RbacService::get_cached_role`. -/
def get_cached_role (st : St) (key : String) : Option Role :=
  if st.cacheReadErr then none
  else match clookup st.cache key with
    | some (CacheEntry.role r) => some r
    | _ => none

/-- `RbacService::cache_role`: a Redis write error is ignored. -/
def cache_role (st : St) (key : String) (r : Role) : St :=
  if st.cacheWriteErr then st
  else { st with cache := cset st.cache key (CacheEntry.role r) }

/-- `RbacService::invalidate_role_cache`. -/
def invalidate_role_cache (st : St) (role_id : String) : St :=
  if st.cacheWriteErr then st
  else { st with cache := cdel st.cache ("role:" ++ role_id) }

/-- `RbacService::invalidate_user_permissions`: deletes the project-scoped
key when a project id is given, then always deletes the global key. -/
def invalidate_user_permissions (st : St) (user_id : String)
    (project_id : Option String) : St :=
  let st1 := match project_id with
    | some pid =>
      if st.cacheWriteErr then st
      else { st with
              cache := cdel st.cache ("permissions:" ++ user_id ++ ":" ++ pid) }
    | none => st
  if st1.cacheWriteErr then st1
  else { st1 with
          cache := cdel st1.cache ("permissions:" ++ user_id ++ ":global") }

/-- `RbacService::get_user` (helper): `find_one` on the users collection,
then `ok_or("User not found")`. -/
def get_user (st : St) (user_id : String) : Except String User :=
  if st.usersDown then Except.error "Failed to get user: store unavailable"
  else match st.users.find? (fun u => u.user_id == user_id) with
    | some u => Except.ok u
    | none => Except.error "User not found"

/-- `RbacService::get_project` (helper). -/
def get_project (st : St) (project_id : String) :
    Except String (Option Project) :=
  if st.projectsDown then
    Except.error "Failed to get project: store unavailable"
  else Except.ok (st.projects.find? (fun p => p.project_id == project_id))

/-- `RbacService::get_membership`. -/
def get_membership (st : St) (user_id project_id : String) :
    Except String (Option ProjectMembership) :=
  if st.membershipsDown then
    Except.error "Failed to get membership: store unavailable"
  else Except.ok (st.memberships.find?
    (fun m => m.user_id == user_id && m.project_id == project_id))

/-- `RbacService::get_memberships_by_role`. -/
def get_memberships_by_role (st : St) (role_id : String) :
    Except String (List ProjectMembership) :=
  if st.membershipsDown then
    Except.error "Failed to get memberships: store unavailable"
  else Except.ok (st.memberships.filter (fun m => m.role_id == role_id))

/-- `RbacService::get_tenant_roles`. -/
def get_tenant_roles (st : St) (tenant_id : String) :
    Except String (List Role) :=
  if st.rolesDown then Except.error "Failed to get roles: store unavailable"
  else Except.ok (st.roles.filter (fun r => r.tenant_id == tenant_id))

/-- `RbacService::get_role_by_id`: Redis read-through (on a store hit the
role is written back to the cache; a miss is not cached). -/
def get_role_by_id (st : St) (role_id : String) :
    St × Except String (Option Role) :=
  let key := "role:" ++ role_id
  match get_cached_role st key with
  | some cached => (st, Except.ok (some cached))
  | none =>
    if st.rolesDown then
      (st, Except.error "Failed to get role: store unavailable")
    else match st.roles.find? (fun r => r.role_id == role_id) with
      | some r => (cache_role st key r, Except.ok (some r))
      | none => (st, Except.ok none)

/-- `RbacService::invalidate_permissions_for_role`: the membership listing's
error is swallowed (`if let Ok(memberships) = ...`), in which case nothing is
invalidated. -/
def invalidate_permissions_for_role (st : St) (role_id : String) : St :=
  match get_memberships_by_role st role_id with
  | Except.error _ => st
  | Except.ok ms =>
    ms.foldl
      (fun acc m => invalidate_user_permissions acc m.user_id (some m.project_id))
      st

/-- The permission bundle list of `RbacService::get_owner_permissions`. -/
def owner_permission_list : List Permission :=
  [.projectRead, .projectUpdate, .projectManageMembers, .userRead,
   .chatRead, .chatWrite, .chatDelete, .chatExport,
   .reportCreate, .reportRead, .reportExport, .reportDelete]

/-- `RbacService::get_owner_permissions` (as the `HashSet<String>` it
returns). -/
def get_owner_permissions : Finset String :=
  (owner_permission_list.map Permission.as_str).toFinset

/-- The permission bundle list of `RbacService::get_member_permissions`. -/
def member_permission_list : List Permission :=
  [.projectRead, .chatRead, .chatWrite, .reportCreate, .reportRead]

/-- `RbacService::get_member_permissions`. -/
def get_member_permissions : Finset String :=
  (member_permission_list.map Permission.as_str).toFinset

/-- The permission bundle list of `RbacService::get_viewer_permissions`. -/
def viewer_permission_list : List Permission :=
  [.projectRead, .chatRead, .reportRead]

/-- `RbacService::get_viewer_permissions`. -/
def get_viewer_permissions : Finset String :=
  (viewer_permission_list.map Permission.as_str).toFinset

/-- `RbacService::get_global_permissions` (its `Result` wrapper never carries
an error, so it is embedded as a total function). -/
def get_global_permissions (role : UserRole) : Finset String :=
  match role with
  | .admin => all_permission_strings
  | .projectOwner => get_owner_permissions
  | .projectMember => get_member_permissions
  | .viewer => get_viewer_permissions

/-- The ownership fallthrough at the end of
`RbacService::get_project_permissions`: load the project; the owner gets the
owner bundle, anyone else (and a missing project) gets the empty set. -/
def owner_fallback (st : St) (user_id project_id : String) :
    St × Except String (Finset String) :=
  match get_project st project_id with
  | Except.error e => (st, Except.error e)
  | Except.ok (some p) =>
    if p.owner_id == user_id then (st, Except.ok get_owner_permissions)
    else (st, Except.ok ∅)
  | Except.ok none => (st, Except.ok ∅)

/-- `RbacService::get_project_permissions`: membership first; a membership
whose role cannot be loaded falls through to the ownership check. -/
def get_project_permissions (st : St) (user_id project_id : String) :
    St × Except String (Finset String) :=
  match get_membership st user_id project_id with
  | Except.error e => (st, Except.error e)
  | Except.ok (some m) =>
    match get_role_by_id st m.role_id with
    | (st1, Except.error e) => (st1, Except.error e)
    | (st1, Except.ok (some r)) => (st1, Except.ok r.permissions.toFinset)
    | (st1, Except.ok none) => owner_fallback st1 user_id project_id
  | Except.ok none => owner_fallback st user_id project_id

/-- The cache key computed at the top of `RbacService::resolve_permissions`. -/
def permissions_cache_key (user_id : String) (project_id : Option String) :
    String :=
  match project_id with
  | some pid => "permissions:" ++ user_id ++ ":" ++ pid
  | none => "permissions:" ++ user_id ++ ":global"

/-- `RbacService::resolve_permissions`. -/
def resolve_permissions (st : St) (user_id : String)
    (project_id : Option String) : St × Except String ResolvedPermissions :=
  let cache_key := permissions_cache_key user_id project_id
  match get_cached_permissions st cache_key with
  | some cached => (st, Except.ok cached)
  | none =>
    match get_user st user_id with
    | Except.error e => (st, Except.error e)
    | Except.ok user =>
      let is_admin : Bool := decide (user.role = UserRole.admin)
      let step : St × Except String (Finset String) :=
        if is_admin then (st, Except.ok all_permission_strings)
        else match project_id with
          | some pid => get_project_permissions st user_id pid
          | none => (st, Except.ok (get_global_permissions user.role))
      match step with
      | (st1, Except.error e) => (st1, Except.error e)
      | (st1, Except.ok permissions) =>
        let resolved : ResolvedPermissions :=
          { user_id := user_id, project_id := project_id,
            permissions := permissions, is_admin := is_admin }
        (cache_permissions st1 cache_key resolved, Except.ok resolved)

/-- The error type of the handler helpers in `middleware/rbac.rs`
(`actix_web::Error`, restricted to the two constructors used). -/
inductive ApiError where
  | internal (msg : String)
  | forbidden (msg : String)
  deriving DecidableEq, Repr

/-- `check_permission` of `middleware/rbac.rs`: resolve, map a resolution
error to an Internal error, then require the permission. -/
def check_permission (st : St) (user_id : String) (project_id : Option String)
    (permission : Permission) : St × Except ApiError ResolvedPermissions :=
  match resolve_permissions st user_id project_id with
  | (st1, Except.error _) =>
    (st1, Except.error (ApiError.internal "Permission check failed"))
  | (st1, Except.ok resolved) =>
    if resolved.has_permission permission then (st1, Except.ok resolved)
    else (st1, Except.error (ApiError.forbidden "Insufficient permissions"))

/-- Replace the first list element satisfying `q` by its image under `f`
(Mongo `update_one`). -/
def updateFirst {α : Type} (q : α → Bool) (f : α → α) : List α → List α
  | [] => []
  | x :: xs => if q x then f x :: xs else x :: updateFirst q f xs

/-- The partial field update `update_role` builds from an `UpdateRoleDto`
(`$set` of the provided fields). -/
def apply_role_patch (r : Role) (dto : UpdateRoleDto) : Role :=
  { r with
    name := dto.name.getD r.name,
    description := dto.description.getD r.description,
    permissions := dto.permissions.getD r.permissions }

/-- A write to the roles collection (the rest of the state untouched). -/
def set_roles (st : St) (rs : List Role) : St :=
  { st with roles := rs }

/-- A write to the memberships collection (the rest untouched). -/
def set_memberships (st : St) (ms : List ProjectMembership) : St :=
  { st with memberships := ms }

/-- `insert_one` of a membership; consumes one fresh UUID. -/
def append_membership (st : St) (m : ProjectMembership) : St :=
  { st with memberships := st.memberships ++ [m], nextId := st.nextId + 1 }

/-- `RbacService::update_role`. -/
def update_role (st : St) (role_id : String) (dto : UpdateRoleDto)
    (tenant_id : String) : St × Except String Role :=
  match get_role_by_id st role_id with
  | (st1, Except.error e) => (st1, Except.error e)
  | (st1, Except.ok none) => (st1, Except.error "Role not found")
  | (st1, Except.ok (some existing)) =>
    if existing.is_system_role then
      (st1, Except.error "Cannot modify system role")
    else if !(existing.tenant_id == tenant_id) then
      (st1, Except.error "Access denied")
    else match dto.permissions.bind
        (fun perms => perms.find? (fun s => (Permission.from_str s).isNone)) with
    | some bad => (st1, Except.error ("Invalid permission: " ++ bad))
    | none =>
      if st1.rolesDown then
        (st1, Except.error "Failed to update role: store unavailable")
      else
        let st2 := set_roles st1 (updateFirst
          (fun r => r.role_id == role_id && r.tenant_id == tenant_id)
          (fun r => apply_role_patch r dto) st1.roles)
        let st3 := invalidate_role_cache st2 role_id
        let st4 := invalidate_permissions_for_role st3 role_id
        match get_role_by_id st4 role_id with
        | (st5, Except.error e) => (st5, Except.error e)
        | (st5, Except.ok none) =>
          (st5, Except.error "Role not found after update")
        | (st5, Except.ok (some r)) => (st5, Except.ok r)

/-- `RbacService::delete_role`. -/
def delete_role (st : St) (role_id : String) (tenant_id : String) :
    St × Except String Unit :=
  match get_role_by_id st role_id with
  | (st1, Except.error e) => (st1, Except.error e)
  | (st1, Except.ok none) => (st1, Except.error "Role not found")
  | (st1, Except.ok (some role)) =>
    if role.is_system_role then (st1, Except.error "Cannot delete system role")
    else if !(role.tenant_id == tenant_id) then
      (st1, Except.error "Access denied")
    else if st1.membershipsDown then
      (st1, Except.error "Failed to check role usage: store unavailable")
    else
      let membership_count :=
        (st1.memberships.filter (fun m => m.role_id == role_id)).length
      if membership_count > 0 then
        (st1, Except.error ("Cannot delete role: " ++ toString membership_count
          ++ " users are assigned to it"))
      else if st1.rolesDown then
        (st1, Except.error "Failed to delete role: store unavailable")
      else
        let st2 := set_roles st1 (st1.roles.eraseP
          (fun r => r.role_id == role_id && r.tenant_id == tenant_id))
        (invalidate_role_cache st2 role_id, Except.ok ())

/-- `RbacService::update_membership`: `update_one` on the first membership
matching user, project and tenant, cache invalidation, then re-read. -/
def update_membership (st : St) (user_id project_id role_id tenant_id : String) :
    St × Except String ProjectMembership :=
  if st.membershipsDown then
    (st, Except.error "Failed to update membership: store unavailable")
  else
    let st1 := set_memberships st (updateFirst
      (fun m => m.user_id == user_id && m.project_id == project_id
        && m.tenant_id == tenant_id)
      (fun m => { m with role_id := role_id }) st.memberships)
    let st2 := invalidate_user_permissions st1 user_id (some project_id)
    match get_membership st2 user_id project_id with
    | Except.error e => (st2, Except.error e)
    | Except.ok (some m) => (st2, Except.ok m)
    | Except.ok none => (st2, Except.error "Membership not found after update")

/-- `RbacService::assign_role`: tenant checks on role and project, user
existence, then upsert of the membership plus cache invalidation. -/
def assign_role (st : St) (dto : AssignRoleDto) (tenant_id : String) :
    St × Except String ProjectMembership :=
  match get_role_by_id st dto.role_id with
  | (st1, Except.error e) => (st1, Except.error e)
  | (st1, Except.ok none) => (st1, Except.error "Role not found")
  | (st1, Except.ok (some role)) =>
    if !(role.tenant_id == tenant_id) then
      (st1, Except.error "Role does not belong to this tenant")
    else match get_project st1 dto.project_id with
    | Except.error e => (st1, Except.error e)
    | Except.ok none => (st1, Except.error "Project not found")
    | Except.ok (some project) =>
      if !(project.tenant_id == tenant_id) then
        (st1, Except.error "Project does not belong to this tenant")
      else match get_user st1 dto.user_id with
      | Except.error e => (st1, Except.error e)
      | Except.ok _user =>
        match get_membership st1 dto.user_id dto.project_id with
        | Except.error e => (st1, Except.error e)
        | Except.ok (some _) =>
          update_membership st1 dto.user_id dto.project_id dto.role_id tenant_id
        | Except.ok none =>
          let m : ProjectMembership :=
            { membership_id := "uuid-" ++ toString st1.nextId,
              user_id := dto.user_id, project_id := dto.project_id,
              role_id := dto.role_id, tenant_id := tenant_id }
          let st2 := append_membership st1 m
          (invalidate_user_permissions st2 dto.user_id (some dto.project_id),
           Except.ok m)

/-- The four canonical roles `RbacService::initialize_system_roles` seeds for
a tenant, in insertion order.  (The Rust builds each `permissions` vector by
iterating a `HashSet`, whose order is unspecified; the bundle lists are used
here, which have the same set contents.) -/
def system_roles_for (tenant_id : String) : List Role :=
  [{ role_id := tenant_id ++ "-admin", name := "Administrator",
     description := "Full system access",
     permissions := Permission.all.map Permission.as_str,
     is_system_role := true, tenant_id := tenant_id },
   { role_id := tenant_id ++ "-owner", name := "Project Owner",
     description := "Full project access",
     permissions := owner_permission_list.map Permission.as_str,
     is_system_role := true, tenant_id := tenant_id },
   { role_id := tenant_id ++ "-member", name := "Project Member",
     description := "Standard project access",
     permissions := member_permission_list.map Permission.as_str,
     is_system_role := true, tenant_id := tenant_id },
   { role_id := tenant_id ++ "-viewer", name := "Viewer",
     description := "Read-only access",
     permissions := viewer_permission_list.map Permission.as_str,
     is_system_role := true, tenant_id := tenant_id }]

/-- `RbacService::initialize_system_roles`: a no-op when the tenant already
has a role flagged `is_system_role`, otherwise four inserts. -/
def initialize_system_roles (st : St) (tenant_id : String) :
    St × Except String Unit :=
  match get_tenant_roles st tenant_id with
  | Except.error e => (st, Except.error e)
  | Except.ok existing =>
    if existing.any (fun r => r.is_system_role) then (st, Except.ok ())
    else if st.rolesDown then
      (st, Except.error "Failed to create system role: store unavailable")
    else
      (set_roles st (st.roles ++ system_roles_for tenant_id), Except.ok ())

/-- The status code the `update_role` handler of `handlers/rbac.rs` answers
with: 200 on success, 400 (`BadRequest`) with the error text for every
service error. -/
def update_role_http_status (res : Except String Role) : Nat :=
  match res with
  | Except.ok _ => 200
  | Except.error _ => 400

/-- The status code the `delete_role` handler of `handlers/rbac.rs` answers
with: 204 on success, 400 (`BadRequest`) with the error text for every
service error. -/
def delete_role_http_status (res : Except String Unit) : Nat :=
  match res with
  | Except.ok _ => 204
  | Except.error _ => 400

/-- The membership record `assign_role` inserts when no membership exists
for the pair (its `Uuid::new_v4` modelled by the fresh-id counter). -/
def fresh_membership (st : St) (dto : AssignRoleDto) (tenant_id : String) :
    ProjectMembership :=
  { membership_id := "uuid-" ++ toString st.nextId,
    user_id := dto.user_id, project_id := dto.project_id,
    role_id := dto.role_id, tenant_id := tenant_id }

/-- How many membership rows exist for a `(user_id, project_id)` pair. -/
def membership_pair_count (st : St) (uid pid : String) : Nat :=
  st.memberships.countP
    (fun m => m.user_id == uid && m.project_id == pid)

/-- The membership store's invariant: at most one membership per
`(user_id, project_id)` pair. -/
def memberships_unique (st : St) : Prop :=
  ∀ uid pid, membership_pair_count st uid pid ≤ 1

/-! Concrete states used to evaluate the theorems on explicit inputs. -/

/-- A directory record whose role flag is Admin. -/
def wUserAdmin : User :=
  { user_id := "u_admin", role := UserRole.admin, tenant_id := "t1" }

/-- A non-admin directory record (the `U42` of the spec's scenario). -/
def wUserMember : User :=
  { user_id := "u42", role := UserRole.viewer, tenant_id := "t1" }

/-- A non-admin directory record owning a project (the spec's `U9`). -/
def wUserOwner : User :=
  { user_id := "u9", role := UserRole.viewer, tenant_id := "t1" }

/-- The spec's scenario role `Analyst` with permissions
`["report:read", "chat:read"]`. -/
def wRoleAnalyst : Role :=
  { role_id := "r_analyst", name := "Analyst", description := "",
    permissions := ["report:read", "chat:read"], is_system_role := false,
    tenant_id := "t1" }

/-- `U42` holds `Analyst` on project `P7`. -/
def wMembership : ProjectMembership :=
  { membership_id := "m1", user_id := "u42", project_id := "p7",
    role_id := "r_analyst", tenant_id := "t1" }

/-- Project `P7` (owned by neither test user). -/
def wProject7 : Project :=
  { project_id := "p7", owner_id := "u_other", tenant_id := "t1" }

/-- The spec's scenario project `P3`, owned by `U9`. -/
def wProject3 : Project :=
  { project_id := "p3", owner_id := "u9", tenant_id := "t1" }

/-- The same state with its cache transport failing: every Redis read and
write returns an error. -/
def cacheFaulty (st : St) : St :=
  { st with cacheReadErr := true, cacheWriteErr := true }

/-- The same state with an empty, healthy cache. -/
def cacheCleared (st : St) : St :=
  { st with cache := [], cacheReadErr := false, cacheWriteErr := false }

/-- A role of another tenant (`t2`), used to probe cross-tenant behavior
with caller tenant `t1`. -/
def wRoleForeign : Role :=
  { role_id := "r_foreign", name := "Foreign", description := "",
    permissions := ["chat:read"], is_system_role := false,
    tenant_id := "t2" }

/-- Assignment of `Analyst` to the already-member pair `(u42, p7)`. -/
def wDtoAssign : AssignRoleDto :=
  { user_id := "u42", project_id := "p7", role_id := "r_analyst" }

/-- Assignment of `Analyst` to the pair `(u9, p7)`, which has no
membership yet. -/
def wDtoAssign2 : AssignRoleDto :=
  { user_id := "u9", project_id := "p7", role_id := "r_analyst" }

/-- An update patch carrying no field. -/
def wDtoEmpty : UpdateRoleDto :=
  { name := none, description := none, permissions := none }

/-- An update patch replacing the permission set. -/
def wDtoPerms : UpdateRoleDto :=
  { name := none, description := none,
    permissions := some ["report:read", "report:export"] }

/-- A healthy base state with the records above and an empty cache. -/
def wSt : St :=
  { users := [wUserAdmin, wUserMember, wUserOwner],
    roles := [wRoleAnalyst],
    memberships := [wMembership],
    projects := [wProject7, wProject3],
    cache := [],
    usersDown := false, rolesDown := false, membershipsDown := false,
    projectsDown := false, cacheReadErr := false, cacheWriteErr := false,
    nextId := 0 }

/-! Library lemmas about the cache association list. -/

theorem clookup_nil (k : String) : clookup ([] : Cache) k = none := rfl

theorem clookup_cdel_self (c : Cache) (k : String) :
    clookup (cdel c k) k = none := by
  have h : (cdel c k).find? (fun e => e.1 == k) = none := by
    rw [List.find?_eq_none]
    intro x hx
    have hq := List.of_mem_filter hx
    simpa using hq
  simp [clookup, h]

theorem clookup_cdel_of_ne (c : Cache) (k k' : String) (h : k ≠ k') :
    clookup (cdel c k') k = clookup c k := by
  induction c with
  | nil => rfl
  | cons e c ih =>
    by_cases he : e.1 = k'
    · simp [cdel, clookup, List.filter_cons, he, Ne.symm h] at ih ⊢
      exact ih
    · by_cases hek : e.1 = k
      · simp [cdel, clookup, List.filter_cons, he, hek, h]
      · simp [cdel, clookup, List.filter_cons, he, hek] at ih ⊢
        exact ih

theorem clookup_cdel_none (c : Cache) (k k' : String)
    (h : clookup c k = none) : clookup (cdel c k') k = none := by
  by_cases hk : k = k'
  · subst hk; exact clookup_cdel_self c k
  · rw [clookup_cdel_of_ne c k k' hk]; exact h

theorem clookup_cset_self (c : Cache) (k : String) (v : CacheEntry) :
    clookup (cset c k v) k = some v := by
  simp [clookup, cset, List.find?_cons]

theorem clookup_cset_of_ne (c : Cache) (k k' : String) (v : CacheEntry)
    (h : k ≠ k') : clookup (cset c k' v) k = clookup c k := by
  simp [clookup, cset, List.find?_cons, Ne.symm h]

/-- The `permissions:...` keyspace and the `role:...` keyspace are disjoint
(their first characters differ). -/
theorem perm_key_ne_role_key (x y : String) :
    ("permissions:" ++ x) ≠ ("role:" ++ y) := by
  intro h
  have h2 : ("permissions:" ++ x).data = ("role:" ++ y).data := congrArg _ h
  rw [String.data_append, String.data_append] at h2
  have hp : "permissions:".data
      = ['p', 'e', 'r', 'm', 'i', 's', 's', 'i', 'o', 'n', 's', ':'] := rfl
  have hr : "role:".data = ['r', 'o', 'l', 'e', ':'] := rfl
  rw [hp, hr] at h2
  simp at h2

/-- C1: on a cache miss, a user whose directory record's role flag is Admin
resolves to `is_admin = true` with the entire permission catalog; no
membership, role or project lookup is performed (witnessed by the same value
being returned when those stores are unavailable); and `has_permission` on
that result is true for every catalog permission, for every project scope
and the global scope. -/
theorem admin_resolves_to_full_catalog
    (st : St) (uid : String) (pid : Option String) (u : User)
    (hmiss : get_cached_permissions st (permissions_cache_key uid pid) = none)
    (hup : st.usersDown = false)
    (hu : st.users.find? (fun w => w.user_id == uid) = some u)
    (hadmin : u.role = UserRole.admin) :
    (resolve_permissions st uid pid).2 =
      Except.ok { user_id := uid, project_id := pid,
                  permissions := all_permission_strings, is_admin := true } ∧
    (resolve_permissions
        { st with membershipsDown := true, rolesDown := true,
                  projectsDown := true } uid pid).2 =
      Except.ok { user_id := uid, project_id := pid,
                  permissions := all_permission_strings, is_admin := true } ∧
    (∀ p : Permission,
      ResolvedPermissions.has_permission
        { user_id := uid, project_id := pid,
          permissions := all_permission_strings, is_admin := true } p
        = true) := by
  refine ⟨?_, ?_, ?_⟩
  · simp [resolve_permissions, hmiss, get_user, hup, hu, hadmin]
  · simp only [get_cached_permissions] at hmiss
    simp [resolve_permissions, get_cached_permissions, hmiss, get_user,
      hup, hu, hadmin]
  · intro p
    simp [ResolvedPermissions.has_permission]

/-- Evaluation of `admin_resolves_to_full_catalog` at the concrete state
`wSt`. -/
theorem admin_resolves_to_full_catalog_witness :
    (resolve_permissions wSt "u_admin" (some "p7")).2 =
      Except.ok { user_id := "u_admin", project_id := some "p7",
                  permissions := all_permission_strings, is_admin := true } ∧
    ResolvedPermissions.has_permission
      { user_id := "u_admin", project_id := some "p7",
        permissions := all_permission_strings, is_admin := true }
      Permission.adminAccess = true :=
  ⟨(admin_resolves_to_full_catalog wSt "u_admin" (some "p7") wUserAdmin
      rfl rfl rfl rfl).1,
   (admin_resolves_to_full_catalog wSt "u_admin" (some "p7") wUserAdmin
      rfl rfl rfl rfl).2.2 Permission.adminAccess⟩

/-- Value of a resolution that goes through a membership whose role loads
(from the role cache or the role store). -/
theorem resolve_membership_value
    (st : St) (uid pid rid : String) (u : User) (m : ProjectMembership)
    (r : Role)
    (hmiss : get_cached_permissions st
      (permissions_cache_key uid (some pid)) = none)
    (hup : st.usersDown = false)
    (hu : st.users.find? (fun w => w.user_id == uid) = some u)
    (hnadmin : u.role ≠ UserRole.admin)
    (hmdown : st.membershipsDown = false)
    (hm : st.memberships.find?
      (fun w => w.user_id == uid && w.project_id == pid) = some m)
    (hmrole : m.role_id = rid)
    (hrole : (get_role_by_id st rid).2 = Except.ok (some r)) :
    (resolve_permissions st uid (some pid)).2 =
      Except.ok { user_id := uid, project_id := some pid,
                  permissions := r.permissions.toFinset,
                  is_admin := false } := by
  rw [← hmrole] at hrole
  cases hrb : get_role_by_id st m.role_id with
  | mk s1 res =>
    rw [hrb] at hrole
    simp only at hrole
    subst hrole
    have hgpp : get_project_permissions st uid pid =
        (s1, Except.ok r.permissions.toFinset) := by
      simp [get_project_permissions, get_membership, hmdown, hm, hrb]
    simp [resolve_permissions, hmiss, get_user, hup, hu, hnadmin, hgpp]

/-- C2: a non-admin user with a membership on the project whose role loads
resolves, on a cache miss, to exactly that role's permission set (no
superset, no subset — the resolved `Finset` is equal to the role's), with
`is_admin = false`. -/
theorem membership_role_resolves_verbatim
    (st : St) (uid pid : String) (u : User) (m : ProjectMembership) (r : Role)
    (hmiss : get_cached_permissions st
      (permissions_cache_key uid (some pid)) = none)
    (hup : st.usersDown = false)
    (hu : st.users.find? (fun w => w.user_id == uid) = some u)
    (hnadmin : u.role ≠ UserRole.admin)
    (hmdown : st.membershipsDown = false)
    (hm : st.memberships.find?
      (fun w => w.user_id == uid && w.project_id == pid) = some m)
    (hrmiss : get_cached_role st ("role:" ++ m.role_id) = none)
    (hrdown : st.rolesDown = false)
    (hr : st.roles.find? (fun w => w.role_id == m.role_id) = some r) :
    (resolve_permissions st uid (some pid)).2 =
      Except.ok { user_id := uid, project_id := some pid,
                  permissions := r.permissions.toFinset,
                  is_admin := false } := by
  have hrole : (get_role_by_id st m.role_id).2 = Except.ok (some r) := by
    simp [get_role_by_id, hrmiss, hrdown, hr]
  exact resolve_membership_value st uid pid m.role_id u m r hmiss hup hu
    hnadmin hmdown hm rfl hrole

/-- Evaluation of `membership_role_resolves_verbatim` at the spec's scenario:
`Analyst = {report:read, chat:read}` assigned to `u42` on `p7`. -/
theorem membership_role_resolves_verbatim_witness :
    (resolve_permissions wSt "u42" (some "p7")).2 =
      Except.ok { user_id := "u42", project_id := some "p7",
                  permissions :=
                    (["report:read", "chat:read"] : List String).toFinset,
                  is_admin := false } :=
  membership_role_resolves_verbatim wSt "u42" "p7" wUserMember wMembership
    wRoleAnalyst rfl rfl rfl (by decide) rfl rfl rfl rfl rfl

/-- C3: a non-admin user with no membership on an existing project resolves,
on a cache miss, to the fixed owner bundle when the project's `owner_id`
equals the user id and to the empty set otherwise; the owner bundle contains
`project:update` and `project:manage_members` and excludes `admin:access`. -/
theorem ownership_fallback_resolves
    (st : St) (uid pid : String) (u : User) (p : Project)
    (hmiss : get_cached_permissions st
      (permissions_cache_key uid (some pid)) = none)
    (hup : st.usersDown = false)
    (hu : st.users.find? (fun w => w.user_id == uid) = some u)
    (hnadmin : u.role ≠ UserRole.admin)
    (hmdown : st.membershipsDown = false)
    (hm : st.memberships.find?
      (fun w => w.user_id == uid && w.project_id == pid) = none)
    (hpdown : st.projectsDown = false)
    (hp : st.projects.find? (fun w => w.project_id == pid) = some p) :
    (resolve_permissions st uid (some pid)).2 =
      Except.ok { user_id := uid, project_id := some pid,
                  permissions :=
                    if p.owner_id = uid then get_owner_permissions else ∅,
                  is_admin := false } ∧
    "project:update" ∈ get_owner_permissions ∧
    "project:manage_members" ∈ get_owner_permissions ∧
    "admin:access" ∉ get_owner_permissions := by
  refine ⟨?_, by decide, by decide, by decide⟩
  have hof : owner_fallback st uid pid =
      (st, Except.ok
        (if p.owner_id = uid then get_owner_permissions else ∅)) := by
    simp only [owner_fallback, get_project, hpdown, hp, Bool.false_eq_true,
      if_false, beq_iff_eq]
    split <;> rfl
  have hgpp : get_project_permissions st uid pid =
      (st, Except.ok
        (if p.owner_id = uid then get_owner_permissions else ∅)) := by
    simp [get_project_permissions, get_membership, hmdown, hm, hof]
  simp [resolve_permissions, hmiss, get_user, hup, hu, hnadmin, hgpp]

/-- Evaluation of `ownership_fallback_resolves` at the spec's scenario:
`u9` owns `p3` with no explicit membership. -/
theorem ownership_fallback_resolves_witness :
    (resolve_permissions wSt "u9" (some "p3")).2 =
      Except.ok { user_id := "u9", project_id := some "p3",
                  permissions := get_owner_permissions,
                  is_admin := false } ∧
    "project:update" ∈ get_owner_permissions ∧
    "admin:access" ∉ get_owner_permissions := by
  have h := ownership_fallback_resolves wSt "u9" "p3" wUserOwner wProject3
    rfl rfl rfl (by decide) rfl rfl rfl rfl
  exact ⟨by simpa [wProject3] using h.1, h.2.1, h.2.2.2⟩

/-- C10: for a non-admin user, a membership whose `role_id` loads no role
record does not fail the resolution and is not used: resolution falls
through to the ownership check, yielding the owner bundle when the project's
`owner_id` equals the user id and the empty set otherwise (also when the
project itself is missing). -/
theorem dangling_role_falls_back_to_ownership
    (st : St) (uid pid : String) (u : User) (m : ProjectMembership)
    (hmiss : get_cached_permissions st
      (permissions_cache_key uid (some pid)) = none)
    (hup : st.usersDown = false)
    (hu : st.users.find? (fun w => w.user_id == uid) = some u)
    (hnadmin : u.role ≠ UserRole.admin)
    (hmdown : st.membershipsDown = false)
    (hm : st.memberships.find?
      (fun w => w.user_id == uid && w.project_id == pid) = some m)
    (hrmiss : get_cached_role st ("role:" ++ m.role_id) = none)
    (hrdown : st.rolesDown = false)
    (hr : st.roles.find? (fun w => w.role_id == m.role_id) = none)
    (hpdown : st.projectsDown = false) :
    (resolve_permissions st uid (some pid)).2 =
      Except.ok { user_id := uid, project_id := some pid,
                  permissions :=
                    match st.projects.find? (fun w => w.project_id == pid) with
                    | some p =>
                      if p.owner_id = uid then get_owner_permissions else ∅
                    | none => ∅,
                  is_admin := false } := by
  have hrb : get_role_by_id st m.role_id = (st, Except.ok none) := by
    simp [get_role_by_id, hrmiss, hrdown, hr]
  have hof : owner_fallback st uid pid =
      (st, Except.ok
        (match st.projects.find? (fun w => w.project_id == pid) with
         | some p => if p.owner_id = uid then get_owner_permissions else ∅
         | none => ∅)) := by
    cases hp : st.projects.find? (fun w => w.project_id == pid) with
    | none => simp [owner_fallback, get_project, hpdown, hp]
    | some p =>
      simp only [owner_fallback, get_project, hpdown, hp, Bool.false_eq_true,
        if_false, beq_iff_eq]
      split <;> rfl
  have hgpp : get_project_permissions st uid pid =
      (st, Except.ok
        (match st.projects.find? (fun w => w.project_id == pid) with
         | some p => if p.owner_id = uid then get_owner_permissions else ∅
         | none => ∅)) := by
    simp [get_project_permissions, get_membership, hmdown, hm, hrb, hof]
  simp [resolve_permissions, hmiss, get_user, hup, hu, hnadmin, hgpp]

/-- Evaluation of `dangling_role_falls_back_to_ownership` at `wSt` with the
roles collection emptied: `u42`'s membership on `p7` references a role that
no longer loads, and `u42` does not own `p7`, so the result is the empty
set. -/
theorem dangling_role_falls_back_to_ownership_witness :
    (resolve_permissions { wSt with roles := [] } "u42" (some "p7")).2 =
      Except.ok { user_id := "u42", project_id := some "p7",
                  permissions := (∅ : Finset String),
                  is_admin := false } := by
  have h := dangling_role_falls_back_to_ownership { wSt with roles := [] }
    "u42" "p7" wUserMember wMembership rfl rfl rfl (by decide) rfl rfl rfl
    rfl rfl rfl
  simpa [wSt, wProject7] using h

/-! A state whose cache reads and writes fail behaves, value-wise, exactly
like one with an empty healthy cache: both read-through layers see misses
and the write-back failures are swallowed. -/

theorem get_role_by_id_value_cache_blind (st : St) (rid : String) :
    (get_role_by_id (cacheFaulty st) rid).2 =
    (get_role_by_id (cacheCleared st) rid).2 := by
  by_cases hd : st.rolesDown <;>
    cases hf : st.roles.find? (fun r => r.role_id == rid) <;>
      simp [get_role_by_id, get_cached_role, clookup, cache_role, hd, hf,
        cacheFaulty, cacheCleared]

theorem owner_fallback_value_cache_blind (st : St) (uid pid : String) :
    (owner_fallback (cacheFaulty st) uid pid).2 =
    (owner_fallback (cacheCleared st) uid pid).2 := by
  by_cases hd : st.projectsDown <;>
    cases hp : st.projects.find? (fun w => w.project_id == pid) <;>
      simp only [owner_fallback, get_project, hd, hp, cacheFaulty,
        cacheCleared, Bool.false_eq_true, if_false, if_true] <;>
    first
      | rfl
      | split <;> rfl

theorem get_project_permissions_value_cache_blind (st : St)
    (uid pid : String) :
    (get_project_permissions (cacheFaulty st) uid pid).2 =
    (get_project_permissions (cacheCleared st) uid pid).2 := by
  by_cases hmd : st.membershipsDown
  · simp [get_project_permissions, get_membership, hmd, cacheFaulty,
      cacheCleared]
  · cases hm : st.memberships.find?
        (fun m => m.user_id == uid && m.project_id == pid) with
    | none =>
      simpa [get_project_permissions, get_membership, hmd, hm, cacheFaulty,
        cacheCleared] using owner_fallback_value_cache_blind st uid pid
    | some m =>
      by_cases hrd : st.rolesDown
      · simp [get_project_permissions, get_membership, hmd, hm,
          get_role_by_id, get_cached_role, clookup, hrd, cacheFaulty,
          cacheCleared]
      · cases hf : st.roles.find? (fun r => r.role_id == m.role_id) with
        | some r =>
          simp [get_project_permissions, get_membership, hmd, hm,
            get_role_by_id, get_cached_role, clookup, cache_role, hrd, hf,
            cacheFaulty, cacheCleared]
        | none =>
          simpa [get_project_permissions, get_membership, hmd, hm,
            get_role_by_id, get_cached_role, clookup, hrd, hf, cacheFaulty,
            cacheCleared] using owner_fallback_value_cache_blind st uid pid

/-- A resolution error makes the middleware's `check_permission` answer the
Internal error. -/
theorem check_permission_of_resolve_error (st : St) (uid : String)
    (pid : Option String) (perm : Permission)
    (h : ∃ e, (resolve_permissions st uid pid).2 = Except.error e) :
    (check_permission st uid pid perm).2 =
      Except.error (ApiError.internal "Permission check failed") := by
  obtain ⟨e, he⟩ := h
  unfold check_permission
  cases hr : resolve_permissions st uid pid with
  | mk st1 res =>
    rw [hr] at he
    simp only at he
    cases res with
    | error e' => simp
    | ok v => exact absurd he (by simp)

/-- C4: failures of the backing stores during resolution are fail-closed —
whichever of the user / membership / role / project lookups the resolution
path reaches fails, `resolve_permissions` returns that store error and
`check_permission` returns the Internal error, never a successful grant —
while cache unavailability is swallowed: with failing cache reads and writes
the resolution returns exactly the value it returns with an empty healthy
cache (same permission set, and no error introduced by the cache). -/
theorem store_failure_fail_closed_cache_degrades
    (st : St) (uid : String) (pid : Option String) (perm : Permission)
    (hmiss : get_cached_permissions st (permissions_cache_key uid pid)
      = none) :
    (st.usersDown = true →
      (resolve_permissions st uid pid).2 =
        Except.error "Failed to get user: store unavailable" ∧
      (check_permission st uid pid perm).2 =
        Except.error (ApiError.internal "Permission check failed")) ∧
    (∀ pid' u, pid = some pid' → st.usersDown = false →
      st.users.find? (fun w => w.user_id == uid) = some u →
      u.role ≠ UserRole.admin → st.membershipsDown = true →
      (resolve_permissions st uid pid).2 =
        Except.error "Failed to get membership: store unavailable" ∧
      (check_permission st uid pid perm).2 =
        Except.error (ApiError.internal "Permission check failed")) ∧
    (∀ pid' u m, pid = some pid' → st.usersDown = false →
      st.users.find? (fun w => w.user_id == uid) = some u →
      u.role ≠ UserRole.admin → st.membershipsDown = false →
      st.memberships.find?
        (fun w => w.user_id == uid && w.project_id == pid') = some m →
      get_cached_role st ("role:" ++ m.role_id) = none →
      st.rolesDown = true →
      (resolve_permissions st uid pid).2 =
        Except.error "Failed to get role: store unavailable" ∧
      (check_permission st uid pid perm).2 =
        Except.error (ApiError.internal "Permission check failed")) ∧
    (∀ pid' u, pid = some pid' → st.usersDown = false →
      st.users.find? (fun w => w.user_id == uid) = some u →
      u.role ≠ UserRole.admin → st.membershipsDown = false →
      st.memberships.find?
        (fun w => w.user_id == uid && w.project_id == pid') = none →
      st.projectsDown = true →
      (resolve_permissions st uid pid).2 =
        Except.error "Failed to get project: store unavailable" ∧
      (check_permission st uid pid perm).2 =
        Except.error (ApiError.internal "Permission check failed")) ∧
    ((resolve_permissions (cacheFaulty st) uid pid).2 =
     (resolve_permissions (cacheCleared st) uid pid).2) := by
  refine ⟨?_, ?_, ?_, ?_, ?_⟩
  · intro hud
    have hres : (resolve_permissions st uid pid).2 =
        Except.error "Failed to get user: store unavailable" := by
      simp [resolve_permissions, hmiss, get_user, hud]
    exact ⟨hres, check_permission_of_resolve_error st uid pid perm ⟨_, hres⟩⟩
  · rintro pid' u rfl hud hu hna hmd
    have hres : (resolve_permissions st uid (some pid')).2 =
        Except.error "Failed to get membership: store unavailable" := by
      simp [resolve_permissions, hmiss, get_user, hud, hu, hna,
        get_project_permissions, get_membership, hmd]
    exact ⟨hres, check_permission_of_resolve_error st uid _ perm ⟨_, hres⟩⟩
  · rintro pid' u m rfl hud hu hna hmd hm hrmiss hrd
    have hres : (resolve_permissions st uid (some pid')).2 =
        Except.error "Failed to get role: store unavailable" := by
      simp [resolve_permissions, hmiss, get_user, hud, hu, hna,
        get_project_permissions, get_membership, hmd, hm,
        get_role_by_id, hrmiss, hrd]
    exact ⟨hres, check_permission_of_resolve_error st uid _ perm ⟨_, hres⟩⟩
  · rintro pid' u rfl hud hu hna hmd hm hpd
    have hres : (resolve_permissions st uid (some pid')).2 =
        Except.error "Failed to get project: store unavailable" := by
      simp [resolve_permissions, hmiss, get_user, hud, hu, hna,
        get_project_permissions, get_membership, hmd, hm,
        owner_fallback, get_project, hpd]
    exact ⟨hres, check_permission_of_resolve_error st uid _ perm ⟨_, hres⟩⟩
  · have hcf : ∀ k, get_cached_permissions (cacheFaulty st) k = none :=
      fun _ => rfl
    have hcc : ∀ k, get_cached_permissions (cacheCleared st) k = none :=
      fun _ => rfl
    have huf : get_user (cacheFaulty st) uid = get_user st uid := rfl
    have huc : get_user (cacheCleared st) uid = get_user st uid := rfl
    simp only [resolve_permissions, hcf, hcc, huf, huc]
    cases hgu : get_user st uid with
    | error e => rfl
    | ok u =>
      by_cases ha : u.role = UserRole.admin
      · simp [ha]
      · cases pid with
        | none => simp [ha]
        | some pid' =>
          have hv := get_project_permissions_value_cache_blind st uid pid'
          simp only [decide_eq_false ha, Bool.false_eq_true, if_false]
          cases hg1 : get_project_permissions (cacheFaulty st) uid pid' with
          | mk s1 r1 =>
            cases hg2 : get_project_permissions (cacheCleared st)
                uid pid' with
            | mk s2 r2 =>
              rw [hg1, hg2] at hv
              simp only at hv
              subst hv
              cases r1 <;> simp

/-- Evaluation of `store_failure_fail_closed_cache_degrades` with the user
store unavailable: resolution and the permission check error out (no grant),
and a faulty cache yields the same outcome as an empty healthy cache. -/
theorem store_failure_fail_closed_cache_degrades_witness :
    (resolve_permissions { wSt with usersDown := true } "u42"
        (some "p7")).2 =
      Except.error "Failed to get user: store unavailable" ∧
    (check_permission { wSt with usersDown := true } "u42" (some "p7")
        Permission.chatRead).2 =
      Except.error (ApiError.internal "Permission check failed") ∧
    (resolve_permissions (cacheFaulty { wSt with usersDown := true }) "u42"
        (some "p7")).2 =
      (resolve_permissions (cacheCleared { wSt with usersDown := true })
        "u42" (some "p7")).2 := by
  have h := store_failure_fail_closed_cache_degrades
    { wSt with usersDown := true } "u42" (some "p7") Permission.chatRead rfl
  exact ⟨(h.1 rfl).1, (h.1 rfl).2, h.2.2.2.2⟩

/-! Frame lemmas: cache write-backs touch no Mongo collection and no fault
flag. -/

theorem cache_role_roles (st : St) (k : String) (r : Role) :
    (cache_role st k r).roles = st.roles := by
  unfold cache_role; split <;> rfl

theorem cache_role_memberships (st : St) (k : String) (r : Role) :
    (cache_role st k r).memberships = st.memberships := by
  unfold cache_role; split <;> rfl

theorem cache_role_users (st : St) (k : String) (r : Role) :
    (cache_role st k r).users = st.users := by
  unfold cache_role; split <;> rfl

theorem cache_role_flags (st : St) (k : String) (r : Role) :
    (cache_role st k r).usersDown = st.usersDown ∧
    (cache_role st k r).rolesDown = st.rolesDown ∧
    (cache_role st k r).membershipsDown = st.membershipsDown ∧
    (cache_role st k r).projectsDown = st.projectsDown ∧
    (cache_role st k r).cacheReadErr = st.cacheReadErr ∧
    (cache_role st k r).cacheWriteErr = st.cacheWriteErr := by
  unfold cache_role; split <;> exact ⟨rfl, rfl, rfl, rfl, rfl, rfl⟩

/-- C5 (counterexample): the claimed indistinguishability fails at the
service boundary — probing role id `r_foreign` with caller tenant `t1`,
`update_role` and `delete_role` answer `Access denied` when the role exists
under tenant `t2` but `Role not found` when no such role exists, two
different observable outcomes. -/
theorem cross_tenant_probe_distinguishable :
    (update_role { wSt with roles := [wRoleForeign] } "r_foreign" wDtoEmpty
        "t1").2 = Except.error "Access denied" ∧
    (update_role { wSt with roles := [] } "r_foreign" wDtoEmpty "t1").2 =
      Except.error "Role not found" ∧
    (Except.error "Access denied" : Except String Role) ≠
      Except.error "Role not found" ∧
    (delete_role { wSt with roles := [wRoleForeign] } "r_foreign" "t1").2 =
      Except.error "Access denied" ∧
    (delete_role { wSt with roles := [] } "r_foreign" "t1").2 =
      Except.error "Role not found" ∧
    (Except.error "Access denied" : Except String Unit) ≠
      Except.error "Role not found" := by
  refine ⟨rfl, rfl, ?_, rfl, rfl, ?_⟩ <;>
    · intro h
      exact absurd (Except.error.inj h) (by decide)

/-- C5 (amended): a cross-tenant `update_role`/`delete_role` fails with
`Access denied` and mutates no role or membership record, an absent role id
fails with `Role not found`, and the handler maps both failures to the same
`BadRequest` status — but the two error messages differ, so the service
error text (which the handler copies into the response body) does
distinguish cross-tenant existence. -/
theorem cross_tenant_update_delete_denied
    (st : St) (rid tenant : String) (dto : UpdateRoleDto) (r : Role)
    (hrmiss : get_cached_role st ("role:" ++ rid) = none)
    (hrdown : st.rolesDown = false)
    (hr : st.roles.find? (fun w => w.role_id == rid) = some r)
    (hsys : r.is_system_role = false)
    (hten : r.tenant_id ≠ tenant) :
    (update_role st rid dto tenant).2 = Except.error "Access denied" ∧
    (delete_role st rid tenant).2 = Except.error "Access denied" ∧
    ((update_role st rid dto tenant).1).roles = st.roles ∧
    ((update_role st rid dto tenant).1).memberships = st.memberships ∧
    ((delete_role st rid tenant).1).roles = st.roles ∧
    ((delete_role st rid tenant).1).memberships = st.memberships ∧
    (∀ rid2, get_cached_role st ("role:" ++ rid2) = none →
      st.roles.find? (fun w => w.role_id == rid2) = none →
      (update_role st rid2 dto tenant).2 = Except.error "Role not found" ∧
      (delete_role st rid2 tenant).2 = Except.error "Role not found" ∧
      update_role_http_status (update_role st rid dto tenant).2 =
        update_role_http_status (update_role st rid2 dto tenant).2 ∧
      delete_role_http_status (delete_role st rid tenant).2 =
        delete_role_http_status (delete_role st rid2 tenant).2) := by
  have hgr : get_role_by_id st rid =
      (cache_role st ("role:" ++ rid) r, Except.ok (some r)) := by
    simp [get_role_by_id, hrmiss, hrdown, hr]
  have hu : update_role st rid dto tenant =
      (cache_role st ("role:" ++ rid) r, Except.error "Access denied") := by
    simp [update_role, hgr, hsys, hten]
  have hd : delete_role st rid tenant =
      (cache_role st ("role:" ++ rid) r, Except.error "Access denied") := by
    simp [delete_role, hgr, hsys, hten]
  refine ⟨by rw [hu], by rw [hd], by rw [hu]; exact cache_role_roles ..,
    by rw [hu]; exact cache_role_memberships ..,
    by rw [hd]; exact cache_role_roles ..,
    by rw [hd]; exact cache_role_memberships .., ?_⟩
  intro rid2 hmiss2 hnone2
  have hgr2 : get_role_by_id st rid2 = (st, Except.ok none) := by
    simp [get_role_by_id, hmiss2, hrdown, hnone2]
  have hu2 : (update_role st rid2 dto tenant).2 =
      Except.error "Role not found" := by
    simp [update_role, hgr2]
  have hd2 : (delete_role st rid2 tenant).2 =
      Except.error "Role not found" := by
    simp [delete_role, hgr2]
  refine ⟨hu2, hd2, ?_, ?_⟩
  · rw [hu, hu2]; rfl
  · rw [hd, hd2]; rfl

/-- Evaluation of `cross_tenant_update_delete_denied` at the concrete probe
state: the cross-tenant role answers `Access denied`, the absent role id
`r_none` answers `Role not found`, both with the same handler status. -/
theorem cross_tenant_update_delete_denied_witness :
    (update_role { wSt with roles := [wRoleForeign] } "r_foreign" wDtoEmpty
        "t1").2 = Except.error "Access denied" ∧
    (delete_role { wSt with roles := [wRoleForeign] } "r_foreign" "t1").2 =
      Except.error "Access denied" ∧
    (update_role { wSt with roles := [wRoleForeign] } "r_none" wDtoEmpty
        "t1").2 = Except.error "Role not found" ∧
    update_role_http_status
        (update_role { wSt with roles := [wRoleForeign] } "r_foreign"
          wDtoEmpty "t1").2 =
      update_role_http_status
        (update_role { wSt with roles := [wRoleForeign] } "r_none"
          wDtoEmpty "t1").2 := by
  have h := cross_tenant_update_delete_denied
    { wSt with roles := [wRoleForeign] } "r_foreign" "t1" wDtoEmpty
    wRoleForeign rfl rfl rfl rfl (by decide)
  exact ⟨h.1, h.2.1, (h.2.2.2.2.2.2 "r_none" rfl rfl).1,
    (h.2.2.2.2.2.2 "r_none" rfl rfl).2.2.1⟩

/-- C7: deleting a role referenced by at least one membership fails with the
Conflict error reporting the membership count and leaves both the roles and
the memberships collections unchanged; and a successful deletion implies
zero memberships referenced the role. -/
theorem delete_role_in_use_conflict
    (st : St) (rid tenant : String) (r : Role)
    (hrmiss : get_cached_role st ("role:" ++ rid) = none)
    (hrdown : st.rolesDown = false)
    (hr : st.roles.find? (fun w => w.role_id == rid) = some r)
    (hsys : r.is_system_role = false)
    (hten : r.tenant_id = tenant)
    (hmdown : st.membershipsDown = false) :
    (0 < (st.memberships.filter (fun m => m.role_id == rid)).length →
      (delete_role st rid tenant).2 = Except.error
        ("Cannot delete role: "
          ++ toString (st.memberships.filter
              (fun m => m.role_id == rid)).length
          ++ " users are assigned to it") ∧
      ((delete_role st rid tenant).1).roles = st.roles ∧
      ((delete_role st rid tenant).1).memberships = st.memberships) ∧
    ((delete_role st rid tenant).2 = Except.ok () →
      (st.memberships.filter (fun m => m.role_id == rid)).length = 0) := by
  have hgr : get_role_by_id st rid =
      (cache_role st ("role:" ++ rid) r, Except.ok (some r)) := by
    simp [get_role_by_id, hrmiss, hrdown, hr]
  by_cases hc : 0 < (st.memberships.filter (fun m => m.role_id == rid)).length
  · have hdel : delete_role st rid tenant =
        (cache_role st ("role:" ++ rid) r, Except.error
          ("Cannot delete role: "
            ++ toString (st.memberships.filter
                (fun m => m.role_id == rid)).length
            ++ " users are assigned to it")) := by
      simp [delete_role, hgr, hsys, hten, hmdown, cache_role_memberships,
        cache_role_flags, hc]
    refine ⟨fun _ => ⟨by rw [hdel], by rw [hdel]; exact cache_role_roles ..,
      by rw [hdel]; exact cache_role_memberships ..⟩, fun hok => ?_⟩
    rw [hdel] at hok
    exact absurd hok (by simp)
  · exact ⟨fun h => absurd h hc, fun _ => by omega⟩

/-- Evaluation of `delete_role_in_use_conflict` at `wSt`: `r_analyst` is
referenced by one membership, so deletion conflicts and changes nothing. -/
theorem delete_role_in_use_conflict_witness :
    (delete_role wSt "r_analyst" "t1").2 =
      Except.error "Cannot delete role: 1 users are assigned to it" ∧
    ((delete_role wSt "r_analyst" "t1").1).roles = wSt.roles ∧
    ((delete_role wSt "r_analyst" "t1").1).memberships = wSt.memberships := by
  have h := (delete_role_in_use_conflict wSt "r_analyst" "t1" wRoleAnalyst
    rfl rfl rfl rfl rfl rfl).1 (by decide)
  exact ⟨by simpa using h.1, h.2.1, h.2.2⟩

/-- When the tenant already has a role flagged `is_system_role`, seeding is
a no-op. -/
theorem initialize_system_roles_noop (st : St) (tenant : String)
    (hrdown : st.rolesDown = false)
    (hexists : ((st.roles.filter (fun r => r.tenant_id == tenant)).any
      (fun r => r.is_system_role)) = true) :
    initialize_system_roles st tenant = (st, Except.ok ()) := by
  unfold initialize_system_roles get_tenant_roles
  rw [hrdown]
  simp only [Bool.false_eq_true, if_false]
  rw [hexists]
  simp

/-- C8: for a tenant without system roles, `initialize_system_roles`
succeeds and appends exactly the four canonical roles; a second call detects
an existing `is_system_role` record and changes nothing (same state, `Ok`),
so the tenant ends with exactly these 4 system roles — Administrator with
the entire catalog, Project Owner / Project Member / Viewer with their
bundles, each with the deterministic identifier derived from the tenant id —
never 8. -/
theorem initialize_system_roles_idempotent
    (st : St) (tenant : String)
    (hrdown : st.rolesDown = false)
    (hnone : ∀ r ∈ st.roles, r.tenant_id = tenant → r.is_system_role = false) :
    (initialize_system_roles st tenant).2 = Except.ok () ∧
    ((initialize_system_roles st tenant).1).roles =
      st.roles ++ system_roles_for tenant ∧
    initialize_system_roles ((initialize_system_roles st tenant).1) tenant =
      ((initialize_system_roles st tenant).1, Except.ok ()) ∧
    ((initialize_system_roles st tenant).1).roles.filter
        (fun r => r.tenant_id == tenant && r.is_system_role) =
      system_roles_for tenant ∧
    (system_roles_for tenant).length = 4 ∧
    (system_roles_for tenant).map
        (fun r => (r.role_id, r.name, r.is_system_role,
          r.permissions.toFinset)) =
      [(tenant ++ "-admin", "Administrator", true, all_permission_strings),
       (tenant ++ "-owner", "Project Owner", true, get_owner_permissions),
       (tenant ++ "-member", "Project Member", true, get_member_permissions),
       (tenant ++ "-viewer", "Viewer", true, get_viewer_permissions)] := by
  have hany : (st.roles.filter (fun r => r.tenant_id == tenant)).any
      (fun r => r.is_system_role) = false := by
    rw [List.any_eq_false]
    intro x hx
    have hm := List.mem_filter.1 hx
    have ht : x.tenant_id = tenant := by simpa using hm.2
    simp [hnone x hm.1 ht]
  have hfirst : initialize_system_roles st tenant =
      ({ st with roles := st.roles ++ system_roles_for tenant },
       Except.ok ()) := by
    simp [initialize_system_roles, get_tenant_roles, hrdown, hany, set_roles]
  have hany2 : (((st.roles ++ system_roles_for tenant).filter
      (fun r => r.tenant_id == tenant)).any (fun r => r.is_system_role))
      = true := by
    simp [List.filter_append, system_roles_for]
  have hsecond : initialize_system_roles
      ({ st with roles := st.roles ++ system_roles_for tenant }) tenant =
      ({ st with roles := st.roles ++ system_roles_for tenant },
       Except.ok ()) :=
    initialize_system_roles_noop _ tenant hrdown hany2
  have hfilter : (st.roles ++ system_roles_for tenant).filter
      (fun r => r.tenant_id == tenant && r.is_system_role) =
      system_roles_for tenant := by
    rw [List.filter_append]
    have h1 : st.roles.filter
        (fun r => r.tenant_id == tenant && r.is_system_role) = [] := by
      rw [List.filter_eq_nil_iff]
      intro x hx
      intro hcontra
      rw [Bool.and_eq_true] at hcontra
      have ht : x.tenant_id = tenant := by simpa using hcontra.1
      have hfalse := hnone x hx ht
      rw [hfalse] at hcontra
      exact absurd hcontra.2 (by simp)
    have h2 : (system_roles_for tenant).filter
        (fun r => r.tenant_id == tenant && r.is_system_role) =
        system_roles_for tenant := by
      simp [system_roles_for]
    rw [h1, h2, List.nil_append]
  refine ⟨by rw [hfirst], by rw [hfirst], ?_, ?_, rfl, rfl⟩
  · rw [hfirst]
    exact hsecond
  · rw [hfirst]
    exact hfilter

/-- Evaluation of `initialize_system_roles_idempotent` for tenant `t1` on
`wSt`: the first call seeds 4 system roles, the second is a no-op. -/
theorem initialize_system_roles_idempotent_witness :
    (initialize_system_roles wSt "t1").2 = Except.ok () ∧
    initialize_system_roles ((initialize_system_roles wSt "t1").1) "t1" =
      ((initialize_system_roles wSt "t1").1, Except.ok ()) ∧
    ((initialize_system_roles wSt "t1").1).roles.filter
        (fun r => r.tenant_id == "t1" && r.is_system_role) =
      system_roles_for "t1" ∧
    (system_roles_for "t1").length = 4 := by
  have h := initialize_system_roles_idempotent wSt "t1" rfl (by decide)
  exact ⟨h.1, h.2.2.1, h.2.2.2.1, h.2.2.2.2.1⟩

/-! Lemmas about `updateFirst` (Mongo `update_one`). -/

theorem find?_updateFirst {α : Type} (p q : α → Bool) (f : α → α)
    {l : List α} {a : α}
    (h : l.find? p = some a) (hq : q a = true)
    (himp : ∀ x, q x = true → p x = true) (hf : p (f a) = true) :
    (updateFirst q f l).find? p = some (f a) := by
  induction l with
  | nil => simp at h
  | cons x xs ih =>
    by_cases hx : p x = true
    · rw [List.find?_cons_of_pos _ hx] at h
      injection h with h
      subst h
      rw [updateFirst, if_pos hq]
      exact List.find?_cons_of_pos _ hf
    · have hqx : ¬q x = true := fun hc => hx (himp x hc)
      rw [List.find?_cons_of_neg _ hx] at h
      rw [updateFirst, if_neg hqx, List.find?_cons_of_neg _ hx]
      exact ih h

theorem updateFirst_length {α : Type} (q : α → Bool) (f : α → α)
    (l : List α) : (updateFirst q f l).length = l.length := by
  induction l with
  | nil => rfl
  | cons x xs ih =>
    rw [updateFirst]
    split
    · rfl
    · simpa using ih

theorem updateFirst_countP {α : Type} (q : α → Bool) (f : α → α)
    (pred : α → Bool) (l : List α)
    (hpres : ∀ x, q x = true → pred (f x) = pred x) :
    (updateFirst q f l).countP pred = l.countP pred := by
  induction l with
  | nil => rfl
  | cons x xs ih =>
    rw [updateFirst]
    by_cases hx : q x = true
    · rw [if_pos hx, List.countP_cons, List.countP_cons, hpres x hx]
    · rw [if_neg hx, List.countP_cons, List.countP_cons, ih]

/-! Lemmas about the cache-invalidation helpers. -/

theorem invalidate_user_permissions_eq (st : St) (u p : String)
    (hw : st.cacheWriteErr = false) :
    invalidate_user_permissions st u (some p) =
      { st with cache := cdel (cdel st.cache ("permissions:" ++ u ++ ":" ++ p)) ("permissions:" ++ u ++ ":global") } := by
  simp [invalidate_user_permissions, hw]

theorem invalidate_user_permissions_shape (st : St) (u : String)
    (popt : Option String) :
    ∃ c, invalidate_user_permissions st u popt = { st with cache := c } := by
  by_cases hw : st.cacheWriteErr
  · have hid : invalidate_user_permissions st u popt = st := by
      cases popt <;> simp [invalidate_user_permissions, hw]
    exact ⟨st.cache, hid⟩
  · cases popt with
    | none =>
      exact ⟨cdel st.cache ("permissions:" ++ u ++ ":global"),
        by simp [invalidate_user_permissions, hw]⟩
    | some p =>
      exact ⟨cdel (cdel st.cache ("permissions:" ++ u ++ ":" ++ p))
          ("permissions:" ++ u ++ ":global"),
        by simp [invalidate_user_permissions, hw]⟩

theorem clookup_invalidate_none (st : St) (u : String) (popt : Option String)
    (k : String) (h : clookup st.cache k = none) :
    clookup (invalidate_user_permissions st u popt).cache k = none := by
  by_cases hw : st.cacheWriteErr
  · obtain ⟨c, hc⟩ := invalidate_user_permissions_shape st u popt
    cases popt <;> simpa [invalidate_user_permissions, hw] using h
  · cases popt with
    | none =>
      simpa [invalidate_user_permissions, hw] using
        clookup_cdel_none _ _ _ h
    | some p =>
      simpa [invalidate_user_permissions, hw] using
        clookup_cdel_none _ _ _ (clookup_cdel_none _ _ _ h)

theorem clookup_foldl_invalidate_none (ms : List ProjectMembership)
    (st : St) (k : String) (h : clookup st.cache k = none) :
    clookup ((ms.foldl (fun acc m =>
      invalidate_user_permissions acc m.user_id (some m.project_id))
      st)).cache k = none := by
  induction ms generalizing st with
  | nil => exact h
  | cons m0 ms ih =>
    rw [List.foldl_cons]
    exact ih _ (clookup_invalidate_none st m0.user_id (some m0.project_id)
      k h)

theorem clookup_foldl_invalidate_mem (ms : List ProjectMembership)
    (st : St) (m : ProjectMembership) (hm : m ∈ ms)
    (hw : st.cacheWriteErr = false) :
    clookup ((ms.foldl (fun acc w =>
        invalidate_user_permissions acc w.user_id (some w.project_id))
        st)).cache
      ("permissions:" ++ m.user_id ++ ":" ++ m.project_id) = none ∧
    clookup ((ms.foldl (fun acc w =>
        invalidate_user_permissions acc w.user_id (some w.project_id))
        st)).cache
      ("permissions:" ++ m.user_id ++ ":global") = none := by
  induction ms generalizing st with
  | nil => cases hm
  | cons m0 ms ih =>
    rw [List.foldl_cons]
    rcases List.mem_cons.1 hm with heq | hmem
    · subst heq
      have heq := invalidate_user_permissions_eq st m.user_id m.project_id hw
      constructor
      · apply clookup_foldl_invalidate_none
        rw [heq]
        exact clookup_cdel_none _ _ _ (clookup_cdel_self _ _)
      · apply clookup_foldl_invalidate_none
        rw [heq]
        exact clookup_cdel_self _ _
    · obtain ⟨c, hc⟩ := invalidate_user_permissions_shape st m0.user_id
        (some m0.project_id)
      have hw2 : (invalidate_user_permissions st m0.user_id
          (some m0.project_id)).cacheWriteErr = false := by
        rw [hc]; exact hw
      exact ih _ hmem hw2

theorem foldl_invalidate_shape (ms : List ProjectMembership) (st : St) :
    ∃ c, (ms.foldl (fun acc m =>
      invalidate_user_permissions acc m.user_id (some m.project_id)) st) =
      { st with cache := c } := by
  induction ms generalizing st with
  | nil => exact ⟨st.cache, rfl⟩
  | cons m0 ms ih =>
    rw [List.foldl_cons]
    obtain ⟨c1, hc1⟩ := invalidate_user_permissions_shape st m0.user_id
      (some m0.project_id)
    obtain ⟨c2, hc2⟩ := ih (invalidate_user_permissions st m0.user_id
      (some m0.project_id))
    rw [hc2, hc1]
    exact ⟨c2, rfl⟩

theorem get_cached_permissions_of_clookup_none (st : St) (k : String)
    (h : clookup st.cache k = none) : get_cached_permissions st k = none := by
  by_cases hr : st.cacheReadErr <;> simp [get_cached_permissions, hr, h]

theorem get_cached_role_of_clookup_none (st : St) (k : String)
    (h : clookup st.cache k = none) : get_cached_role st k = none := by
  by_cases hr : st.cacheReadErr <;> simp [get_cached_role, hr, h]

theorem cache_role_cache_eq (st : St) (k : String) (r : Role)
    (hw : st.cacheWriteErr = false) :
    (cache_role st k r).cache = cset st.cache k (CacheEntry.role r) := by
  simp [cache_role, hw]

theorem cache_role_rolesDown (st : St) (k : String) (r : Role) :
    (cache_role st k r).rolesDown = st.rolesDown := by
  unfold cache_role; split <;> rfl

theorem cache_role_membershipsDown (st : St) (k : String) (r : Role) :
    (cache_role st k r).membershipsDown = st.membershipsDown := by
  unfold cache_role; split <;> rfl

theorem cache_role_usersDown (st : St) (k : String) (r : Role) :
    (cache_role st k r).usersDown = st.usersDown := by
  unfold cache_role; split <;> rfl

theorem cache_role_projectsDown (st : St) (k : String) (r : Role) :
    (cache_role st k r).projectsDown = st.projectsDown := by
  unfold cache_role; split <;> rfl

theorem cache_role_cacheReadErr (st : St) (k : String) (r : Role) :
    (cache_role st k r).cacheReadErr = st.cacheReadErr := by
  unfold cache_role; split <;> rfl

theorem cache_role_cacheWriteErr (st : St) (k : String) (r : Role) :
    (cache_role st k r).cacheWriteErr = st.cacheWriteErr := by
  unfold cache_role; split <;> rfl

theorem cache_role_projects (st : St) (k : String) (r : Role) :
    (cache_role st k r).projects = st.projects := by
  unfold cache_role; split <;> rfl

theorem cache_role_nextId (st : St) (k : String) (r : Role) :
    (cache_role st k r).nextId = st.nextId := by
  unfold cache_role; split <;> rfl

theorem set_roles_proj (st : St) (rs : List Role) :
    (set_roles st rs).roles = rs ∧
    (set_roles st rs).users = st.users ∧
    (set_roles st rs).memberships = st.memberships ∧
    (set_roles st rs).projects = st.projects ∧
    (set_roles st rs).cache = st.cache ∧
    (set_roles st rs).usersDown = st.usersDown ∧
    (set_roles st rs).rolesDown = st.rolesDown ∧
    (set_roles st rs).membershipsDown = st.membershipsDown ∧
    (set_roles st rs).projectsDown = st.projectsDown ∧
    (set_roles st rs).cacheReadErr = st.cacheReadErr ∧
    (set_roles st rs).cacheWriteErr = st.cacheWriteErr ∧
    (set_roles st rs).nextId = st.nextId :=
  ⟨rfl, rfl, rfl, rfl, rfl, rfl, rfl, rfl, rfl, rfl, rfl, rfl⟩

theorem set_memberships_proj (st : St) (ms : List ProjectMembership) :
    (set_memberships st ms).memberships = ms ∧
    (set_memberships st ms).users = st.users ∧
    (set_memberships st ms).roles = st.roles ∧
    (set_memberships st ms).projects = st.projects ∧
    (set_memberships st ms).cache = st.cache ∧
    (set_memberships st ms).usersDown = st.usersDown ∧
    (set_memberships st ms).rolesDown = st.rolesDown ∧
    (set_memberships st ms).membershipsDown = st.membershipsDown ∧
    (set_memberships st ms).projectsDown = st.projectsDown ∧
    (set_memberships st ms).cacheReadErr = st.cacheReadErr ∧
    (set_memberships st ms).cacheWriteErr = st.cacheWriteErr ∧
    (set_memberships st ms).nextId = st.nextId :=
  ⟨rfl, rfl, rfl, rfl, rfl, rfl, rfl, rfl, rfl, rfl, rfl, rfl⟩

theorem append_membership_proj (st : St) (m : ProjectMembership) :
    (append_membership st m).memberships = st.memberships ++ [m] ∧
    (append_membership st m).cache = st.cache ∧
    (append_membership st m).cacheWriteErr = st.cacheWriteErr :=
  ⟨rfl, rfl, rfl⟩

theorem invalidate_role_cache_eq (st : St) (rid : String)
    (hw : st.cacheWriteErr = false) :
    invalidate_role_cache st rid =
      { st with cache := cdel st.cache ("role:" ++ rid) } := by
  simp [invalidate_role_cache, hw]

theorem invalidate_permissions_for_role_eq (st : St) (rid : String)
    (hmdown : st.membershipsDown = false) :
    invalidate_permissions_for_role st rid =
      (st.memberships.filter (fun m => m.role_id == rid)).foldl
        (fun acc m =>
          invalidate_user_permissions acc m.user_id (some m.project_id))
        st := by
  simp [invalidate_permissions_for_role, get_memberships_by_role, hmdown]

/-- Inequalities between the two resolved-permissions key shapes and the
role key shape (the keyspaces start with different characters). -/
theorem perm_proj_key_ne_role_key (u p y : String) :
    ("permissions:" ++ u ++ ":" ++ p) ≠ ("role:" ++ y) := by
  intro h
  have h2 := congrArg String.data h
  rw [String.data_append, String.data_append, String.data_append,
    String.data_append] at h2
  have hp : "permissions:".data
      = ['p', 'e', 'r', 'm', 'i', 's', 's', 'i', 'o', 'n', 's', ':'] := rfl
  have hr : "role:".data = ['r', 'o', 'l', 'e', ':'] := rfl
  rw [hp, hr] at h2
  simp at h2

theorem perm_global_key_ne_role_key (u y : String) :
    ("permissions:" ++ u ++ ":global") ≠ ("role:" ++ y) := by
  intro h
  have h2 := congrArg String.data h
  rw [String.data_append, String.data_append, String.data_append] at h2
  have hp : "permissions:".data
      = ['p', 'e', 'r', 'm', 'i', 's', 's', 'i', 'o', 'n', 's', ':'] := rfl
  have hr : "role:".data = ['r', 'o', 'l', 'e', ':'] := rfl
  rw [hp, hr] at h2
  simp at h2

/-- The re-read at the end of a successful `update_role`: after the role
cache entry was deleted and the permission-entry fan-out ran, `get_role_by_id`
misses the cache, reads the updated store and writes the fresh role back. -/
theorem update_final_read (stB : St) (rid : String) (rP : Role)
    (hwB : stB.cacheWriteErr = false)
    (hmdB : stB.membershipsDown = false)
    (hrdB : stB.rolesDown = false)
    (hfind : stB.roles.find? (fun w => w.role_id == rid) = some rP) :
    get_role_by_id
      (invalidate_permissions_for_role (invalidate_role_cache stB rid) rid)
      rid =
    (cache_role
      (invalidate_permissions_for_role (invalidate_role_cache stB rid) rid)
      ("role:" ++ rid) rP,
     Except.ok (some rP)) := by
  have hC : invalidate_role_cache stB rid =
      { stB with cache := cdel stB.cache ("role:" ++ rid) } :=
    invalidate_role_cache_eq stB rid hwB
  have hCm : (invalidate_role_cache stB rid).membershipsDown = false := by
    rw [hC]; exact hmdB
  have hD : invalidate_permissions_for_role (invalidate_role_cache stB rid)
      rid =
      ((invalidate_role_cache stB rid).memberships.filter
        (fun m => m.role_id == rid)).foldl
        (fun acc m =>
          invalidate_user_permissions acc m.user_id (some m.project_id))
        (invalidate_role_cache stB rid) :=
    invalidate_permissions_for_role_eq _ rid hCm
  obtain ⟨c4, hshape⟩ := foldl_invalidate_shape
    ((invalidate_role_cache stB rid).memberships.filter
      (fun m => m.role_id == rid))
    (invalidate_role_cache stB rid)
  have hnone : clookup (invalidate_permissions_for_role
      (invalidate_role_cache stB rid) rid).cache ("role:" ++ rid) = none := by
    rw [hD]
    apply clookup_foldl_invalidate_none
    rw [hC]
    exact clookup_cdel_self _ _
  have hcached : get_cached_role (invalidate_permissions_for_role
      (invalidate_role_cache stB rid) rid) ("role:" ++ rid) = none :=
    get_cached_role_of_clookup_none _ _ hnone
  have hroles : (invalidate_permissions_for_role
      (invalidate_role_cache stB rid) rid).roles = stB.roles := by
    rw [hD, hshape, hC]
  have hrd : (invalidate_permissions_for_role
      (invalidate_role_cache stB rid) rid).rolesDown = false := by
    rw [hD, hshape, hC]; exact hrdB
  simp [get_role_by_id, hcached, hrd, hroles, hfind]

/-- Facts about the state a successful `update_role` ends in (role-cache
deletion, permission fan-out deletion, fresh role write-back), relative to
the state `stB` the store update produced. -/
theorem update_post_state (stB : St) (rid : String) (rP : Role)
    (hwB : stB.cacheWriteErr = false)
    (hmdB : stB.membershipsDown = false)
    (hreadB : stB.cacheReadErr = false) :
    (cache_role (invalidate_permissions_for_role
      (invalidate_role_cache stB rid) rid) ("role:" ++ rid) rP).memberships
      = stB.memberships ∧
    (cache_role (invalidate_permissions_for_role
      (invalidate_role_cache stB rid) rid) ("role:" ++ rid) rP).users
      = stB.users ∧
    (cache_role (invalidate_permissions_for_role
      (invalidate_role_cache stB rid) rid) ("role:" ++ rid) rP).usersDown
      = stB.usersDown ∧
    (cache_role (invalidate_permissions_for_role
      (invalidate_role_cache stB rid) rid) ("role:" ++ rid) rP).membershipsDown
      = stB.membershipsDown ∧
    clookup (cache_role (invalidate_permissions_for_role
      (invalidate_role_cache stB rid) rid) ("role:" ++ rid) rP).cache
      ("role:" ++ rid) = some (CacheEntry.role rP) ∧
    (∀ m, m ∈ stB.memberships → m.role_id = rid →
      clookup (cache_role (invalidate_permissions_for_role
        (invalidate_role_cache stB rid) rid) ("role:" ++ rid) rP).cache
        ("permissions:" ++ m.user_id ++ ":" ++ m.project_id) = none ∧
      clookup (cache_role (invalidate_permissions_for_role
        (invalidate_role_cache stB rid) rid) ("role:" ++ rid) rP).cache
        ("permissions:" ++ m.user_id ++ ":global") = none) ∧
    (get_role_by_id (cache_role (invalidate_permissions_for_role
      (invalidate_role_cache stB rid) rid) ("role:" ++ rid) rP) rid).2
      = Except.ok (some rP) := by
  have hC : invalidate_role_cache stB rid =
      { stB with cache := cdel stB.cache ("role:" ++ rid) } :=
    invalidate_role_cache_eq stB rid hwB
  have hCm : (invalidate_role_cache stB rid).membershipsDown = false := by
    rw [hC]; exact hmdB
  have hD : invalidate_permissions_for_role (invalidate_role_cache stB rid)
      rid =
      ((invalidate_role_cache stB rid).memberships.filter
        (fun m => m.role_id == rid)).foldl
        (fun acc m =>
          invalidate_user_permissions acc m.user_id (some m.project_id))
        (invalidate_role_cache stB rid) :=
    invalidate_permissions_for_role_eq _ rid hCm
  obtain ⟨c4, hshape⟩ := foldl_invalidate_shape
    ((invalidate_role_cache stB rid).memberships.filter
      (fun m => m.role_id == rid))
    (invalidate_role_cache stB rid)
  have hDeq : invalidate_permissions_for_role (invalidate_role_cache stB rid)
      rid = { stB with cache := c4 } := by
    rw [hD, hshape, hC]
  have hDw : (invalidate_permissions_for_role (invalidate_role_cache stB rid)
      rid).cacheWriteErr = false := by
    rw [hDeq]; exact hwB
  have hEcache : (cache_role (invalidate_permissions_for_role
      (invalidate_role_cache stB rid) rid) ("role:" ++ rid) rP).cache =
      cset (invalidate_permissions_for_role (invalidate_role_cache stB rid)
        rid).cache ("role:" ++ rid) (CacheEntry.role rP) :=
    cache_role_cache_eq _ _ _ hDw
  have hperms : ∀ m, m ∈ stB.memberships → m.role_id = rid →
      clookup (cache_role (invalidate_permissions_for_role
        (invalidate_role_cache stB rid) rid) ("role:" ++ rid) rP).cache
        ("permissions:" ++ m.user_id ++ ":" ++ m.project_id) = none ∧
      clookup (cache_role (invalidate_permissions_for_role
        (invalidate_role_cache stB rid) rid) ("role:" ++ rid) rP).cache
        ("permissions:" ++ m.user_id ++ ":global") = none := by
    intro m hm hrole
    have hmemC : m ∈ (invalidate_role_cache stB rid).memberships.filter
        (fun w => w.role_id == rid) := by
      rw [hC]
      exact List.mem_filter.2 ⟨hm, by simp [hrole]⟩
    have hwC : (invalidate_role_cache stB rid).cacheWriteErr = false := by
      rw [hC]; exact hwB
    have h2 := clookup_foldl_invalidate_mem
      ((invalidate_role_cache stB rid).memberships.filter
        (fun w => w.role_id == rid))
      (invalidate_role_cache stB rid) m hmemC hwC
    constructor
    · rw [hEcache,
        clookup_cset_of_ne _ _ _ _ (perm_proj_key_ne_role_key _ _ _), hD]
      exact h2.1
    · rw [hEcache,
        clookup_cset_of_ne _ _ _ _ (perm_global_key_ne_role_key _ _), hD]
      exact h2.2
  have hrolekey : clookup (cache_role (invalidate_permissions_for_role
      (invalidate_role_cache stB rid) rid) ("role:" ++ rid) rP).cache
      ("role:" ++ rid) = some (CacheEntry.role rP) := by
    rw [hEcache]
    exact clookup_cset_self _ _ _
  refine ⟨?_, ?_, ?_, ?_, hrolekey, hperms, ?_⟩
  · rw [cache_role_memberships, hDeq]
  · rw [cache_role_users, hDeq]
  · rw [cache_role_usersDown, hDeq]
  · rw [cache_role_membershipsDown, hDeq]
  · have hread2 : (cache_role (invalidate_permissions_for_role
        (invalidate_role_cache stB rid) rid) ("role:" ++ rid) rP).cacheReadErr
        = false := by
      rw [cache_role_cacheReadErr, hDeq]; exact hreadB
    simp [get_role_by_id, get_cached_role, hread2, hrolekey]

/-- C6: a successful `update_role` applies the new permission set, deletes
the resolved-permissions cache entries (project-scoped and global) of every
user holding a membership that references the role, and leaves the role's
own cache entry holding the updated role (the stale entry was deleted, then
the final re-read wrote the fresh value back); membership rows are
untouched; consequently every non-admin user holding the role resolves to
the new permission set S′ on their next resolution. -/
theorem update_role_invalidates_and_propagates
    (st : St) (rid tenant : String) (dto : UpdateRoleDto) (r : Role)
    (sl : List String)
    (hread : st.cacheReadErr = false)
    (hw : st.cacheWriteErr = false)
    (hrdown : st.rolesDown = false)
    (hmdown : st.membershipsDown = false)
    (hudown : st.usersDown = false)
    (hrmiss : get_cached_role st ("role:" ++ rid) = none)
    (hr : st.roles.find? (fun w => w.role_id == rid) = some r)
    (hsys : r.is_system_role = false)
    (hten : r.tenant_id = tenant)
    (hperm : dto.permissions = some sl)
    (hvalid : sl.find? (fun s => (Permission.from_str s).isNone) = none) :
    (update_role st rid dto tenant).2 =
      Except.ok (apply_role_patch r dto) ∧
    (apply_role_patch r dto).permissions = sl ∧
    ((update_role st rid dto tenant).1).memberships = st.memberships ∧
    clookup ((update_role st rid dto tenant).1).cache ("role:" ++ rid) =
      some (CacheEntry.role (apply_role_patch r dto)) ∧
    (∀ m, m ∈ st.memberships → m.role_id = rid →
      clookup ((update_role st rid dto tenant).1).cache
        ("permissions:" ++ m.user_id ++ ":" ++ m.project_id) = none ∧
      clookup ((update_role st rid dto tenant).1).cache
        ("permissions:" ++ m.user_id ++ ":global") = none) ∧
    (∀ m u2, m ∈ st.memberships → m.role_id = rid →
      st.users.find? (fun w => w.user_id == m.user_id) = some u2 →
      u2.role ≠ UserRole.admin →
      st.memberships.find?
        (fun w => w.user_id == m.user_id && w.project_id == m.project_id)
        = some m →
      (resolve_permissions ((update_role st rid dto tenant).1) m.user_id
        (some m.project_id)).2 =
        Except.ok { user_id := m.user_id, project_id := some m.project_id,
                    permissions := sl.toFinset, is_admin := false }) := by
  have hgr : get_role_by_id st rid =
      (cache_role st ("role:" ++ rid) r, Except.ok (some r)) := by
    simp [get_role_by_id, hrmiss, hrdown, hr]
  have hpr : r.role_id = rid := by simpa using List.find?_some hr
  have hq : (r.role_id == rid && r.tenant_id == tenant) = true := by
    simp [hpr, hten]
  have hupd : (updateFirst
      (fun w => w.role_id == rid && w.tenant_id == tenant)
      (fun w => apply_role_patch w dto) st.roles).find?
      (fun w => w.role_id == rid) = some (apply_role_patch r dto) := by
    refine find?_updateFirst _ _ _ hr hq (fun x hx => ?_) ?_
    · rw [Bool.and_eq_true] at hx
      exact hx.1
    · simp [apply_role_patch, hpr]
  have hslperm : (apply_role_patch r dto).permissions = sl := by
    simp [apply_role_patch, hperm]
  have hBw : (set_roles (cache_role st ("role:" ++ rid) r) (updateFirst (fun w => w.role_id == rid && w.tenant_id == tenant) (fun w => apply_role_patch w dto) (cache_role st ("role:" ++ rid) r).roles)).cacheWriteErr = false := by
    simp [set_roles, cache_role_cacheWriteErr, hw]
  have hBread : (set_roles (cache_role st ("role:" ++ rid) r) (updateFirst (fun w => w.role_id == rid && w.tenant_id == tenant) (fun w => apply_role_patch w dto) (cache_role st ("role:" ++ rid) r).roles)).cacheReadErr = false := by
    simp [set_roles, cache_role_cacheReadErr, hread]
  have hBmd : (set_roles (cache_role st ("role:" ++ rid) r) (updateFirst (fun w => w.role_id == rid && w.tenant_id == tenant) (fun w => apply_role_patch w dto) (cache_role st ("role:" ++ rid) r).roles)).membershipsDown = false := by
    simp [set_roles, cache_role_membershipsDown, hmdown]
  have hBrd : (set_roles (cache_role st ("role:" ++ rid) r) (updateFirst (fun w => w.role_id == rid && w.tenant_id == tenant) (fun w => apply_role_patch w dto) (cache_role st ("role:" ++ rid) r).roles)).rolesDown = false := by
    simp [set_roles, cache_role_rolesDown, hrdown]
  have hBud : (set_roles (cache_role st ("role:" ++ rid) r) (updateFirst (fun w => w.role_id == rid && w.tenant_id == tenant) (fun w => apply_role_patch w dto) (cache_role st ("role:" ++ rid) r).roles)).usersDown = st.usersDown := by
    simp [set_roles, cache_role_usersDown]
  have hBm : (set_roles (cache_role st ("role:" ++ rid) r) (updateFirst (fun w => w.role_id == rid && w.tenant_id == tenant) (fun w => apply_role_patch w dto) (cache_role st ("role:" ++ rid) r).roles)).memberships = st.memberships := by
    simp [set_roles, cache_role_memberships]
  have hBu : (set_roles (cache_role st ("role:" ++ rid) r) (updateFirst (fun w => w.role_id == rid && w.tenant_id == tenant) (fun w => apply_role_patch w dto) (cache_role st ("role:" ++ rid) r).roles)).users = st.users := by
    simp [set_roles, cache_role_users]
  have hBroles : (set_roles (cache_role st ("role:" ++ rid) r) (updateFirst (fun w => w.role_id == rid && w.tenant_id == tenant) (fun w => apply_role_patch w dto) (cache_role st ("role:" ++ rid) r).roles)).roles.find? (fun w => w.role_id == rid) = some (apply_role_patch r dto) := by
    simpa [set_roles, cache_role_roles] using hupd
  have hresult : update_role st rid dto tenant =
      (cache_role (invalidate_permissions_for_role
        (invalidate_role_cache (set_roles (cache_role st ("role:" ++ rid) r) (updateFirst (fun w => w.role_id == rid && w.tenant_id == tenant) (fun w => apply_role_patch w dto) (cache_role st ("role:" ++ rid) r).roles)) rid) rid) ("role:" ++ rid)
        (apply_role_patch r dto),
       Except.ok (apply_role_patch r dto)) := by
    simp only [update_role, hgr, hsys, hten, hperm, hvalid, Option.some_bind,
      beq_self_eq_true, Bool.not_true, Bool.false_eq_true, if_false,
      cache_role_rolesDown, hrdown]
    rw [update_final_read _ rid (apply_role_patch r dto) hBw hBmd hBrd
      hBroles]
  have hpost := update_post_state _ rid (apply_role_patch r dto) hBw hBmd
    hBread
  refine ⟨by rw [hresult], hslperm, ?_, ?_, ?_, ?_⟩
  · rw [hresult]
    exact hpost.1.trans hBm
  · rw [hresult]
    exact hpost.2.2.2.2.1
  · intro m hm hrid
    have hmB := hBm.symm ▸ hm
    have h2 := hpost.2.2.2.2.2.1 m hmB hrid
    constructor
    · rw [hresult]; exact h2.1
    · rw [hresult]; exact h2.2
  · intro m u2 hm hrid hu2find hu2na hmfind
    have hmB := hBm.symm ▸ hm
    have hlook := hpost.2.2.2.2.2.1 m hmB hrid
    have hp1 := get_cached_permissions_of_clookup_none _
      (permissions_cache_key m.user_id (some m.project_id)) hlook.1
    have hp2 := (hpost.2.2.1).trans (hBud.trans hudown)
    have hp3 := (hpost.2.1.trans hBu) ▸ hu2find
    have hp4 := (hpost.2.2.2.1).trans hBmd
    have hp5 := (hpost.1.trans hBm) ▸ hmfind
    have hp6 := hpost.2.2.2.2.2.2
    have hres := resolve_membership_value _ m.user_id m.project_id rid u2 m
      (apply_role_patch r dto) hp1 hp2 hp3 hu2na hp4 hp5 hrid hp6
    rw [hslperm] at hres
    rw [hresult]
    exact hres

/-- Evaluation of `update_role_invalidates_and_propagates` at `wSt`:
`Analyst`'s permission set is replaced by
`{report:read, report:export}`; `u42`'s cached resolutions are invalidated
and the next resolution returns the new set. -/
theorem update_role_invalidates_and_propagates_witness :
    (update_role wSt "r_analyst" wDtoPerms "t1").2 =
      Except.ok (apply_role_patch wRoleAnalyst wDtoPerms) ∧
    clookup ((update_role wSt "r_analyst" wDtoPerms "t1").1).cache
      ("permissions:" ++ "u42" ++ ":" ++ "p7") = none ∧
    clookup ((update_role wSt "r_analyst" wDtoPerms "t1").1).cache
      ("permissions:" ++ "u42" ++ ":global") = none ∧
    (resolve_permissions ((update_role wSt "r_analyst" wDtoPerms "t1").1)
        "u42" (some "p7")).2 =
      Except.ok { user_id := "u42", project_id := some "p7",
                  permissions :=
                    (["report:read", "report:export"] : List String).toFinset,
                  is_admin := false } := by
  have h := update_role_invalidates_and_propagates wSt "r_analyst" "t1"
    wDtoPerms wRoleAnalyst ["report:read", "report:export"]
    rfl rfl rfl rfl rfl rfl rfl rfl rfl rfl rfl
  have hmem : wMembership ∈ wSt.memberships := by simp [wSt]
  have hlook := h.2.2.2.2.1 wMembership hmem rfl
  have hres := h.2.2.2.2.2 wMembership wUserMember hmem rfl rfl (by decide)
    rfl
  exact ⟨h.1, hlook.1, hlook.2, hres⟩

/-- C9: `assign_role` upserts — when a membership already exists for the
`(user_id, project_id)` pair (with the caller's tenant) it updates that
row's `role_id` in place, keeping the membership count of every pair
unchanged; when none exists it inserts exactly one row for the pair; in both
cases the resolver cache entries `permissions:{user}:{project}` and
`permissions:{user}:global` are deleted, and the at-most-one-membership-per-
pair invariant is preserved. -/
theorem assign_role_upserts_and_invalidates
    (st : St) (dto : AssignRoleDto) (tenant : String) (role : Role)
    (project : Project) (u : User)
    (hw : st.cacheWriteErr = false)
    (hrdown : st.rolesDown = false)
    (hrmiss : get_cached_role st ("role:" ++ dto.role_id) = none)
    (hrfind : st.roles.find? (fun w => w.role_id == dto.role_id) = some role)
    (hrten : role.tenant_id = tenant)
    (hpdown : st.projectsDown = false)
    (hpfind : st.projects.find?
      (fun w => w.project_id == dto.project_id) = some project)
    (hpten : project.tenant_id = tenant)
    (hudown : st.usersDown = false)
    (hufind : st.users.find? (fun w => w.user_id == dto.user_id) = some u)
    (hmdown : st.membershipsDown = false) :
    (∀ m0, st.memberships.find?
        (fun w => w.user_id == dto.user_id && w.project_id == dto.project_id)
        = some m0 →
      m0.tenant_id = tenant →
      (assign_role st dto tenant).2 =
        Except.ok { m0 with role_id := dto.role_id } ∧
      ((assign_role st dto tenant).1).memberships.length =
        st.memberships.length ∧
      (∀ uid pid, membership_pair_count ((assign_role st dto tenant).1)
        uid pid = membership_pair_count st uid pid) ∧
      clookup ((assign_role st dto tenant).1).cache
        ("permissions:" ++ dto.user_id ++ ":" ++ dto.project_id) = none ∧
      clookup ((assign_role st dto tenant).1).cache
        ("permissions:" ++ dto.user_id ++ ":global") = none ∧
      (memberships_unique st →
        memberships_unique ((assign_role st dto tenant).1))) ∧
    (st.memberships.find?
        (fun w => w.user_id == dto.user_id && w.project_id == dto.project_id)
        = none →
      (assign_role st dto tenant).2 =
        Except.ok (fresh_membership st dto tenant) ∧
      ((assign_role st dto tenant).1).memberships =
        st.memberships ++ [fresh_membership st dto tenant] ∧
      membership_pair_count ((assign_role st dto tenant).1)
        dto.user_id dto.project_id = 1 ∧
      clookup ((assign_role st dto tenant).1).cache
        ("permissions:" ++ dto.user_id ++ ":" ++ dto.project_id) = none ∧
      clookup ((assign_role st dto tenant).1).cache
        ("permissions:" ++ dto.user_id ++ ":global") = none ∧
      (memberships_unique st →
        memberships_unique ((assign_role st dto tenant).1))) := by
  have hgr : get_role_by_id st dto.role_id =
      (cache_role st ("role:" ++ dto.role_id) role, Except.ok (some role)) := by
    simp [get_role_by_id, hrmiss, hrdown, hrfind]
  have hproj : get_project (cache_role st ("role:" ++ dto.role_id) role)
      dto.project_id = Except.ok (some project) := by
    simp [get_project, cache_role_projects, cache_role_projectsDown,
      hpdown, hpfind]
  have huser : get_user (cache_role st ("role:" ++ dto.role_id) role)
      dto.user_id = Except.ok u := by
    simp [get_user, cache_role_users, cache_role_usersDown, hudown, hufind]
  constructor
  · intro m0 hm0 hm0ten
    have hmem : get_membership (cache_role st ("role:" ++ dto.role_id) role)
        dto.user_id dto.project_id = Except.ok (some m0) := by
      simp [get_membership, cache_role_memberships,
        cache_role_membershipsDown, hmdown, hm0]
    have hp0 := List.find?_some hm0
    have hq : (m0.user_id == dto.user_id && m0.project_id == dto.project_id
        && m0.tenant_id == tenant) = true := by
      rw [Bool.and_eq_true]
      exact ⟨hp0, by simp [hm0ten]⟩
    have hupdm : (updateFirst
        (fun m => m.user_id == dto.user_id && m.project_id == dto.project_id
          && m.tenant_id == tenant)
        (fun m => { m with role_id := dto.role_id }) st.memberships).find?
        (fun w => w.user_id == dto.user_id && w.project_id == dto.project_id)
        = some { m0 with role_id := dto.role_id } := by
      refine find?_updateFirst _ _ _ hm0 hq (fun x hx => ?_) ?_
      · rw [Bool.and_eq_true] at hx
        exact hx.1
      · exact hp0
    have hassign : assign_role st dto tenant = update_membership
        (cache_role st ("role:" ++ dto.role_id) role)
        dto.user_id dto.project_id dto.role_id tenant := by
      simp [assign_role, hgr, hrten, hproj, hpten, huser, hmem]
    have hmd1 : (cache_role st ("role:" ++ dto.role_id) role).membershipsDown
        = false := (cache_role_membershipsDown ..).trans hmdown
    have hm1 : (cache_role st ("role:" ++ dto.role_id) role).memberships
        = st.memberships := cache_role_memberships ..
    have hw1 : St.cacheWriteErr (set_memberships
        (cache_role st ("role:" ++ dto.role_id) role)
        (updateFirst
          (fun m => m.user_id == dto.user_id
            && m.project_id == dto.project_id && m.tenant_id == tenant)
          (fun m => { m with role_id := dto.role_id })
          (cache_role st ("role:" ++ dto.role_id) role).memberships))
        = false :=
      ((set_memberships_proj _ _).2.2.2.2.2.2.2.2.2.2.1).trans
        ((cache_role_cacheWriteErr ..).trans hw)
    have hinv := invalidate_user_permissions_eq
      (set_memberships (cache_role st ("role:" ++ dto.role_id) role)
        (updateFirst
          (fun m => m.user_id == dto.user_id
            && m.project_id == dto.project_id && m.tenant_id == tenant)
          (fun m => { m with role_id := dto.role_id })
          (cache_role st ("role:" ++ dto.role_id) role).memberships))
      dto.user_id dto.project_id hw1
    have hgm2 : get_membership (invalidate_user_permissions
        (set_memberships (cache_role st ("role:" ++ dto.role_id) role)
          (updateFirst
            (fun m => m.user_id == dto.user_id
              && m.project_id == dto.project_id && m.tenant_id == tenant)
            (fun m => { m with role_id := dto.role_id })
            (cache_role st ("role:" ++ dto.role_id) role).memberships))
        dto.user_id (some dto.project_id)) dto.user_id dto.project_id =
        Except.ok (some { m0 with role_id := dto.role_id }) := by
      obtain ⟨c, hc⟩ := invalidate_user_permissions_shape
        (set_memberships (cache_role st ("role:" ++ dto.role_id) role)
          (updateFirst
            (fun m => m.user_id == dto.user_id
              && m.project_id == dto.project_id && m.tenant_id == tenant)
            (fun m => { m with role_id := dto.role_id })
            (cache_role st ("role:" ++ dto.role_id) role).memberships))
        dto.user_id (some dto.project_id)
      rw [hc]
      simp [get_membership, set_memberships, cache_role_membershipsDown,
        hmdown, cache_role_memberships, hupdm]
    have hum : update_membership
        (cache_role st ("role:" ++ dto.role_id) role)
        dto.user_id dto.project_id dto.role_id tenant =
        (invalidate_user_permissions
          (set_memberships (cache_role st ("role:" ++ dto.role_id) role)
            (updateFirst
              (fun m => m.user_id == dto.user_id
                && m.project_id == dto.project_id && m.tenant_id == tenant)
              (fun m => { m with role_id := dto.role_id })
              (cache_role st ("role:" ++ dto.role_id) role).memberships))
          dto.user_id (some dto.project_id),
         Except.ok { m0 with role_id := dto.role_id }) := by
      rw [update_membership]
      rw [if_neg (by simp [hmd1])]
      simp only [hgm2]
    have hfinal := hassign.trans hum
    have hfm : ((assign_role st dto tenant).1).memberships =
        updateFirst
          (fun m => m.user_id == dto.user_id
            && m.project_id == dto.project_id && m.tenant_id == tenant)
          (fun m => { m with role_id := dto.role_id }) st.memberships := by
      rw [hfinal, hinv]
      simp [set_memberships, hm1]
    have hcount : ∀ uid pid,
        membership_pair_count ((assign_role st dto tenant).1) uid pid =
        membership_pair_count st uid pid := by
      intro uid pid
      unfold membership_pair_count
      rw [hfm]
      exact updateFirst_countP _ _ _ _ (fun x _ => rfl)
    refine ⟨by rw [hfinal], ?_, hcount, ?_, ?_, ?_⟩
    · rw [hfm]
      exact updateFirst_length _ _ _
    · rw [hfinal, hinv]
      exact clookup_cdel_none _ _ _ (clookup_cdel_self _ _)
    · rw [hfinal, hinv]
      exact clookup_cdel_self _ _
    · intro huni uid pid
      rw [hcount uid pid]
      exact huni uid pid
  · intro hmnone
    have hmem : get_membership (cache_role st ("role:" ++ dto.role_id) role)
        dto.user_id dto.project_id = Except.ok none := by
      simp [get_membership, cache_role_memberships,
        cache_role_membershipsDown, hmdown, hmnone]
    have hnid : (cache_role st ("role:" ++ dto.role_id) role).nextId
        = st.nextId := cache_role_nextId ..
    have hassign : assign_role st dto tenant =
        (invalidate_user_permissions
          (append_membership (cache_role st ("role:" ++ dto.role_id) role)
            (fresh_membership st dto tenant))
          dto.user_id (some dto.project_id),
         Except.ok (fresh_membership st dto tenant)) := by
      simp [assign_role, hgr, hrten, hproj, hpten, huser, hmem,
        fresh_membership, hnid]
    have hw2 : (append_membership (cache_role st ("role:" ++ dto.role_id)
        role) (fresh_membership st dto tenant)).cacheWriteErr = false :=
      (append_membership_proj ..).2.2.trans
        ((cache_role_cacheWriteErr ..).trans hw)
    have hinv := invalidate_user_permissions_eq
      (append_membership (cache_role st ("role:" ++ dto.role_id) role)
        (fresh_membership st dto tenant))
      dto.user_id dto.project_id hw2
    have hfm : ((assign_role st dto tenant).1).memberships =
        st.memberships ++ [fresh_membership st dto tenant] := by
      rw [hassign, hinv]
      simp [append_membership, cache_role_memberships]
    have hc0 : st.memberships.countP
        (fun m => m.user_id == dto.user_id
          && m.project_id == dto.project_id) = 0 := by
      rw [List.countP_eq_zero]
      intro a ha
      exact List.find?_eq_none.1 hmnone a ha
    have hcpair : membership_pair_count ((assign_role st dto tenant).1)
        dto.user_id dto.project_id = 1 := by
      unfold membership_pair_count
      rw [hfm, List.countP_append, hc0]
      simp [fresh_membership]
    refine ⟨by rw [hassign], hfm, hcpair, ?_, ?_, ?_⟩
    · rw [hassign, hinv]
      exact clookup_cdel_none _ _ _ (clookup_cdel_self _ _)
    · rw [hassign, hinv]
      exact clookup_cdel_self _ _
    · intro huni uid pid
      unfold membership_pair_count
      rw [hfm, List.countP_append]
      by_cases hmatch : (fun m => m.user_id == uid && m.project_id == pid)
          (fresh_membership st dto tenant) = true
      · have huid : dto.user_id = uid := by
          rw [Bool.and_eq_true] at hmatch
          simpa [fresh_membership] using hmatch.1
        have hpid : dto.project_id = pid := by
          rw [Bool.and_eq_true] at hmatch
          simpa [fresh_membership] using hmatch.2
        subst huid
        subst hpid
        rw [hc0]
        simp [fresh_membership]
      · have : List.countP (fun m => m.user_id == uid && m.project_id == pid)
            [fresh_membership st dto tenant] = 0 := by
          simp only [List.countP_cons, List.countP_nil]
          simp [hmatch]
        rw [this]
        have := huni uid pid
        unfold membership_pair_count at this
        omega

/-- Evaluation of `assign_role_upserts_and_invalidates` at `wSt`: assigning
to the already-member pair `(u42, p7)` updates in place and invalidates the
resolver cache keys; assigning to the fresh pair `(u9, p7)` inserts exactly
one membership row. -/
theorem assign_role_upserts_and_invalidates_witness :
    (assign_role wSt wDtoAssign "t1").2 =
      Except.ok { wMembership with role_id := "r_analyst" } ∧
    membership_pair_count ((assign_role wSt wDtoAssign "t1").1) "u42" "p7" =
      membership_pair_count wSt "u42" "p7" ∧
    clookup ((assign_role wSt wDtoAssign "t1").1).cache
      ("permissions:" ++ "u42" ++ ":" ++ "p7") = none ∧
    (assign_role wSt wDtoAssign2 "t1").2 =
      Except.ok (fresh_membership wSt wDtoAssign2 "t1") ∧
    membership_pair_count ((assign_role wSt wDtoAssign2 "t1").1) "u9" "p7"
      = 1 ∧
    clookup ((assign_role wSt wDtoAssign2 "t1").1).cache
      ("permissions:" ++ "u9" ++ ":global") = none := by
  have hA := (assign_role_upserts_and_invalidates wSt wDtoAssign "t1"
    wRoleAnalyst wProject7 wUserMember rfl rfl rfl rfl rfl rfl rfl rfl rfl
    rfl rfl).1 wMembership rfl rfl
  have hB := (assign_role_upserts_and_invalidates wSt wDtoAssign2 "t1"
    wRoleAnalyst wProject7 wUserOwner rfl rfl rfl rfl rfl rfl rfl rfl rfl
    rfl rfl).2 rfl
  exact ⟨hA.1, hA.2.2.1 "u42" "p7", hA.2.2.2.1, hB.1, hB.2.2.1,
    hB.2.2.2.2.1⟩

end BiRbac
